import Mathlib

/-!
A shallow embedding of the per-frame game simulation implemented in
src/components/GameCanvas.tsx.

Modelling conventions:
* JavaScript floating-point numbers are modelled as rationals (ℚ);
  Date.now() timestamps are integers (milliseconds, ℤ).
* Math.random() is modelled as a stream of rationals threaded through the
  state (`Rng`); each call to Math.random() consumes one element, in the
  same order as the source evaluates them.
* Math.sin, Math.cos and Math.PI only influence cosmetic wobble positions
  (drone/mine bobbing, mine spawn phase); they are modelled by arbitrary
  function/constant parameters (`Trig`).
* The near-miss test Math.sqrt(dx*dx+dy*dy) < PLAYER_SIZE + 25 is embedded
  as dx*dx+dy*dy < (PLAYER_SIZE + 25)^2, equivalent since both radii are
  nonnegative.
* Obstacle/collectible/power-up ids (Math.random().toString(36).substr(2,9))
  are modelled by the underlying random draw itself (a rational); only
  identity comparisons of ids matter to the simulation.
* Canvas rendering, audio cues (services/audioService, a fire-and-forget
  sink), the HUD projections (setActiveHudPowerUps / setHasMultiplier /
  setLastSocialMsg) and gamepad polling are presentation/input
  collaborators with no bearing on the simulated state and are omitted.
* Social events handed to the host via onSocialEvent are accumulated in an
  `events` list so emission counts can be stated.
-/

namespace GameCanvas

/-- GameState from src/types.ts. -/
inductive GameState where
  | START
  | PLAYING
  | GAMEOVER
deriving DecidableEq

/-- PowerUpType from src/types.ts. -/
inductive PowerUpType where
  | SHIELD
  | BOOST
  | MULTIPLIER
deriving DecidableEq

/-- SocialEvent from src/types.ts. -/
inductive SocialEvent where
  | NEAR_MISS
  | COLLECT
  | POWERUP
  | BIOME_SHIFT
  | LEVEL_UP
deriving DecidableEq

/-- The eight obstacle type tags from src/types.ts. -/
inductive ObsType where
  | spike
  | wall
  | drone
  | mine
  | laser
  | saw
  | stomp
  | missile
deriving DecidableEq

/-- Stomp obstacle stage strings 'waiting' / 'dropping' / 'rising'. -/
inductive StompStage where
  | waiting
  | dropping
  | rising
deriving DecidableEq

/-- The loosely-typed per-obstacle `state` payload, as a tagged union
(null for spike/wall/drone, per-type records otherwise). -/
inductive ObsState where
  | plain
  | mineS (phase : ℚ)
  | laserS (timer : ℚ) (active : Bool)
  | sawS (rotation : ℚ)
  | stompS (stage : StompStage) (timer : ℚ) (impactSoundPlayed : Bool)
  | missileS (speed : ℚ)
deriving DecidableEq

/-- Obstacle record from src/types.ts (id modelled as the raw random draw). -/
structure Obstacle where
  id : ℚ
  x : ℚ
  y : ℚ
  baseY : ℚ
  width : ℚ
  height : ℚ
  type : ObsType
  speedMultiplier : ℚ
  state : ObsState
deriving DecidableEq

/-- Collectible record from src/types.ts. -/
structure Collectible where
  id : ℚ
  x : ℚ
  y : ℚ
  size : ℚ
  collected : Bool
deriving DecidableEq

/-- PowerUp record from src/types.ts. -/
structure PowerUpItem where
  id : ℚ
  x : ℚ
  y : ℚ
  size : ℚ
  type : PowerUpType
  collected : Bool
deriving DecidableEq

/-- Particle record from src/types.ts (`type: 'heart'` modelled as a flag). -/
structure Particle where
  x : ℚ
  y : ℚ
  vx : ℚ
  vy : ℚ
  life : ℚ
  color : String
  heart : Bool
deriving DecidableEq

/-- Environment colors (only the particle-color strings reach the core). -/
structure Env where
  primaryColor : String
  secondaryColor : String

/-- Abstract model of Math.sin / Math.cos / 2*Math.PI: these feed only
cosmetic sine-bob positions, so any rational-valued functions stand in for
the transcendental originals. -/
structure Trig where
  sinQ : ℚ → ℚ
  cosQ : ℚ → ℚ
  twoPi : ℚ

/-- Math.random() as a deterministic stream of rationals with a cursor. -/
structure Rng where
  seq : ℕ → ℚ
  idx : ℕ

/-- One Math.random() call: yields the current draw and advances the cursor. -/
def Rng.next (r : Rng) : ℚ × Rng :=
  (r.seq r.idx, { r with idx := r.idx + 1 })

/-- The activePowerUps Map<PowerUpType, number> (absolute expiry per type);
a slot per type since the key space has exactly three values. -/
structure Registry where
  shield : Option ℤ
  boost : Option ℤ
  multiplier : Option ℤ
deriving DecidableEq

/-- Map.get: the expiry stored for a power-up type, if present. -/
def Registry.get (r : Registry) : PowerUpType → Option ℤ
  | PowerUpType.SHIELD => r.shield
  | PowerUpType.BOOST => r.boost
  | PowerUpType.MULTIPLIER => r.multiplier

/-- Map.has. -/
def Registry.has (r : Registry) (t : PowerUpType) : Bool :=
  (r.get t).isSome

/-- Map.set. -/
def Registry.set (r : Registry) (t : PowerUpType) (e : ℤ) : Registry :=
  match t with
  | PowerUpType.SHIELD => { r with shield := some e }
  | PowerUpType.BOOST => { r with boost := some e }
  | PowerUpType.MULTIPLIER => { r with multiplier := some e }

/-- Map.delete. -/
def Registry.delete (r : Registry) (t : PowerUpType) : Registry :=
  match t with
  | PowerUpType.SHIELD => { r with shield := none }
  | PowerUpType.BOOST => { r with boost := none }
  | PowerUpType.MULTIPLIER => { r with multiplier := none }

/-- One slot of the expiry purge: `if (now > expiry) delete`. -/
def Registry.pruneSlot (now : ℤ) : Option ℤ → Option ℤ
  | some e => if now > e then none else some e
  | none => none

/-- The per-tick expiry purge loop over all entries (lines 283-289). -/
def Registry.prune (r : Registry) (now : ℤ) : Registry :=
  { shield := Registry.pruneSlot now r.shield,
    boost := Registry.pruneSlot now r.boost,
    multiplier := Registry.pruneSlot now r.multiplier }

/-- The empty Map. -/
def Registry.empty : Registry :=
  { shield := none, boost := none, multiplier := none }

/-- Keyboard direction state fed to the tick (gamepad polling omitted). -/
structure InputState where
  left : Bool
  right : Bool

def CANVAS_WIDTH : ℚ := 800
def GROUND_Y : ℚ := 320
def GRAVITY : ℚ := 4/5
def PLAYER_X : ℚ := 100
def PLAYER_SIZE : ℚ := 30
def PLAYER_SPEED : ℚ := 5
def POWERUP_DURATION : ℤ := 8000
def NEAR_MISS_THRESHOLD : ℚ := 25
def INVINCIBILITY_DURATION : ℤ := 2000

/-- The complete mutable simulation state held in the component's refs. -/
structure GameSt where
  score : ℚ
  lastLevel : ℤ
  isDying : Bool
  invincibleUntil : ℤ
  timeScale : ℚ
  playerPos : ℚ × ℚ
  playerVel : ℚ × ℚ
  isJumping : Bool
  lastXDir : ℚ
  obstacles : List Obstacle
  collectibles : List Collectible
  powerUps : List PowerUpItem
  particles : List Particle
  dashTrails : List (ℚ × ℚ)
  nearMissed : List ℚ
  activePowerUps : Registry
  backgroundOffset : ℚ
  shakeTime : ℚ
  shakeOffset : ℚ × ℚ
  events : List SocialEvent
  rng : Rng

/-- The default color when a burst's random color index is out of range. -/
def noColor : String := ""

/-- createCollisionBurst (lines 180-190): count particles, each drawing
vx, vy, life and a color index. -/
def burstParticles (x y : ℚ) (colors : List String) :
    ℕ → ℚ → Rng → List Particle × Rng
  | 0, _, rng => ([], rng)
  | n + 1, force, rng =>
      let (r1, rng) := rng.next
      let (r2, rng) := rng.next
      let (r3, rng) := rng.next
      let (r4, rng) := rng.next
      let p : Particle :=
        { x := x, y := y, vx := (r1 - 1/2) * force, vy := (r2 - 1/2) * force,
          life := 4/5 + r3 * (3/2),
          color := colors.getD (Rat.floor (r4 * (colors.length : ℚ))).toNat noColor,
          heart := false }
      let (ps, rng) := burstParticles x y colors n force rng
      (p :: ps, rng)

/-- createLikeParticles (lines 167-178): five heart particles. -/
def likeParticles (x y : ℚ) : ℕ → Rng → List Particle × Rng
  | 0, rng => ([], rng)
  | n + 1, rng =>
      let (r1, rng) := rng.next
      let (r2, rng) := rng.next
      let p : Particle :=
        { x := x, y := y, vx := (r1 - 1/2) * 4, vy := -(r2 * 6) - 2,
          life := 1, color := "#ff0055", heart := true }
      let (ps, rng) := likeParticles x y n rng
      (p :: ps, rng)

/-- triggerDeathSequence (lines 244-262): a no-op while already dying;
otherwise sets the dying flag, the slow-motion time scale 0.15, a
100-particle burst at the impact point and 200ms of screen shake.  (The
1500ms onGameOver timeout is represented by `gameOverReport` below.) -/
def triggerDeathSequence (env : Env) (impactX impactY : ℚ) (st : GameSt) : GameSt :=
  if st.isDying then st
  else
    { st with isDying := true, timeScale := 3/20,
              particles := st.particles ++ (burstParticles impactX impactY
                [env.primaryColor, env.secondaryColor, "#ffffff", "#ff0000", "#ff8800"]
                100 40 st.rng).1,
              shakeTime := 200,
              rng := (burstParticles impactX impactY
                [env.primaryColor, env.secondaryColor, "#ffffff", "#ff0000", "#ff8800"]
                100 40 st.rng).2 }

/-- The deferred onGameOver callback reports Math.floor(scoreRef.current)
(line 260). -/
def gameOverReport (st : GameSt) : ℤ :=
  Rat.floor st.score

/-- The level-up check (lines 339-346): current level is
floor(score/1000)+1; when it exceeds the recorded level, emit one LEVEL_UP,
record the new level and grant invincibility. -/
def levelCheck (now : ℤ) (st : GameSt) : GameSt :=
  let currentLevel := Rat.floor (st.score / 1000) + 1
  if currentLevel > st.lastLevel then
    { st with lastLevel := currentLevel,
              events := st.events ++ [SocialEvent.LEVEL_UP],
              invincibleUntil := now + INVINCIBILITY_DURATION }
  else st

/-- The near-miss check for one obstacle (lines 397-407), run after the
obstacle has moved: squared-distance form of dist < PLAYER_SIZE + 25. -/
def nearMissCheck (obs : Obstacle) (st : GameSt) : GameSt :=
  if !st.isDying && !(decide (obs.id ∈ st.nearMissed)) then
    let dx := st.playerPos.1 + PLAYER_SIZE/2 - (obs.x + obs.width/2)
    let dy := st.playerPos.2 + PLAYER_SIZE/2 - (obs.y + obs.height/2)
    if dx*dx + dy*dy < (PLAYER_SIZE + NEAR_MISS_THRESHOLD)^2 then
      { st with nearMissed := obs.id :: st.nearMissed,
                events := st.events ++ [SocialEvent.NEAR_MISS],
                score := st.score + 500 }
    else st
  else st

/-- The instance-fixed extra speed of a missile (obs.state.speed). -/
def missileSpeed : ObsState → ℚ
  | ObsState.missileS s => s
  | _ => 0

/-- Whether a laser is in the active (collidable) half of its blink cycle. -/
def laserActive : ObsState → Bool
  | ObsState.laserS _ a => a
  | _ => false

/-- The movement / behavior state machine step for one obstacle
(lines 349-395): scroll, then the per-type behavior. -/
def obstacleBehave (trig : Trig) (env : Env) (now : ℤ) (dt gameSpeed : ℚ)
    (obs : Obstacle) (rng : Rng) (ps : List Particle) :
    Obstacle × Rng × List Particle :=
  let obs :=
    if obs.type = ObsType.missile then
      { obs with x := obs.x - (gameSpeed + missileSpeed obs.state * dt) }
    else
      { obs with x := obs.x - gameSpeed }
  match obs.type, obs.state with
  | ObsType.drone, _ =>
      ({ obs with y := obs.baseY + trig.sinQ ((now : ℚ) / 300 + obs.x / 100) * 12 }, rng, ps)
  | ObsType.mine, ObsState.mineS phase =>
      let time := (now : ℚ) / 400 + phase
      ({ obs with y := obs.baseY + trig.sinQ time * 40,
                  x := obs.x + trig.cosQ (time * (3/2)) * 2 }, rng, ps)
  | ObsType.laser, ObsState.laserS timer active =>
      let timer := timer + 16 * dt
      if timer > 2000 then
        ({ obs with state := ObsState.laserS 0 (!active) }, rng, ps)
      else
        ({ obs with state := ObsState.laserS timer active }, rng, ps)
  | ObsType.saw, ObsState.sawS rot =>
      ({ obs with state := ObsState.sawS (rot + (1/5) * dt) }, rng, ps)
  | ObsType.stomp, ObsState.stompS stage timer impactPlayed =>
      match stage with
      | StompStage.waiting =>
          let timer := timer - 16 * dt
          if timer ≤ 0 then
            ({ obs with state := ObsState.stompS StompStage.dropping timer impactPlayed }, rng, ps)
          else
            ({ obs with state := ObsState.stompS StompStage.waiting timer impactPlayed }, rng, ps)
      | StompStage.dropping =>
          let y := obs.y + 20 * dt
          if y ≥ GROUND_Y - obs.height then
            let obs := { obs with y := GROUND_Y - obs.height }
            if impactPlayed then
              ({ obs with state := ObsState.stompS StompStage.rising 500 impactPlayed }, rng, ps)
            else
              let (burst, rng) := burstParticles (obs.x + obs.width / 2) GROUND_Y
                [env.secondaryColor, "#ffffff"] 15 25 rng
              ({ obs with state := ObsState.stompS StompStage.rising 500 true }, rng, ps ++ burst)
          else
            ({ obs with y := y }, rng, ps)
      | StompStage.rising =>
          let timer := timer - 16 * dt
          if timer ≤ 0 then
            let y := obs.y - 3 * dt
            if y ≤ -obs.height then
              let (r, rng) := rng.next
              ({ obs with y := -obs.height,
                          state := ObsState.stompS StompStage.waiting (1500 + r * 2000) false },
               rng, ps)
            else
              ({ obs with y := y, state := ObsState.stompS StompStage.rising timer impactPlayed },
               rng, ps)
          else
            ({ obs with state := ObsState.stompS StompStage.rising timer impactPlayed }, rng, ps)
  | _, _ => (obs, rng, ps)

/-- One iteration of the obstacles.forEach body: behavior step followed by
the near-miss check on the moved obstacle. -/
def obstacleStep (trig : Trig) (env : Env) (now : ℤ) (dt gameSpeed : ℚ)
    (obs : Obstacle) (st : GameSt) : Obstacle × GameSt :=
  let (obs, rng, ps) := obstacleBehave trig env now dt gameSpeed obs st.rng st.particles
  (obs, nearMissCheck obs { st with rng := rng, particles := ps })

/-- The obstacles.forEach loop (lines 349-408). -/
def obstaclesLoop (trig : Trig) (env : Env) (now : ℤ) (dt gameSpeed : ℚ) :
    List Obstacle → GameSt → List Obstacle × GameSt
  | [], st => ([], st)
  | o :: os, st =>
      let (o, st) := obstacleStep trig env now dt gameSpeed o st
      let (os, st) := obstaclesLoop trig env now dt gameSpeed os st
      (o :: os, st)

/-- The AABB overlap test used for both pickups (lines 429 and 444). -/
def pickupOverlap (px py x y size : ℚ) : Bool :=
  decide (px < x + size) && decide (px + PLAYER_SIZE > x) &&
  decide (py < y + size) && decide (py + PLAYER_SIZE > y)

/-- The state effect of picking up one power-up (lines 430-440): registry
entry set to now + 8000, a POWERUP event and a white particle burst. -/
def pickupApply (now : ℤ) (p : PowerUpItem) (st : GameSt) : GameSt :=
  { st with activePowerUps := st.activePowerUps.set p.type (now + POWERUP_DURATION),
            events := st.events ++ [SocialEvent.POWERUP],
            particles := st.particles ++
              (burstParticles (p.x + p.size/2) (p.y + p.size/2) ["#ffffff"] 15 25 st.rng).1,
            rng := (burstParticles (p.x + p.size/2) (p.y + p.size/2) ["#ffffff"] 15 25 st.rng).2 }

/-- The power-up pickup loop (lines 428-442). -/
def powerUpLoop (now : ℤ) : List PowerUpItem → GameSt → List PowerUpItem × GameSt
  | [], st => ([], st)
  | p :: ps, st =>
      if !p.collected && pickupOverlap st.playerPos.1 st.playerPos.2 p.x p.y p.size then
        ({ p with collected := true } :: (powerUpLoop now ps (pickupApply now p st)).1,
         (powerUpLoop now ps (pickupApply now p st)).2)
      else
        (p :: (powerUpLoop now ps st).1, (powerUpLoop now ps st).2)

/-- The state effect of picking up one collectible (lines 445-449):
+300 with MULTIPLIER active, +100 otherwise, a COLLECT event and hearts. -/
def collectApply (isMult : Bool) (c : Collectible) (st : GameSt) : GameSt :=
  { st with score := st.score + (if isMult then 300 else 100),
            events := st.events ++ [SocialEvent.COLLECT],
            particles := st.particles ++
              (likeParticles (c.x + c.size/2) (c.y + c.size/2) 5 st.rng).1,
            rng := (likeParticles (c.x + c.size/2) (c.y + c.size/2) 5 st.rng).2 }

/-- The collectible pickup loop (lines 443-451). -/
def collectibleLoop (isMult : Bool) : List Collectible → GameSt → List Collectible × GameSt
  | [], st => ([], st)
  | c :: cs, st =>
      if !c.collected && pickupOverlap st.playerPos.1 st.playerPos.2 c.x c.y c.size then
        ({ c with collected := true } :: (collectibleLoop isMult cs (collectApply isMult c st)).1,
         (collectibleLoop isMult cs (collectApply isMult c st)).2)
      else
        (c :: (collectibleLoop isMult cs st).1, (collectibleLoop isMult cs st).2)

/-- The hazard hit test (lines 456-458): AABB with a 5-unit inward margin
for every type but laser; a laser hits only while active and only on the
horizontal band (obs.x + 5, obs.x + width - 5). -/
def hitTest (px py : ℚ) (obs : Obstacle) : Bool :=
  (decide (obs.type ≠ ObsType.laser) &&
   decide (px + 5 < obs.x + obs.width - 5) &&
   decide (px + PLAYER_SIZE - 5 > obs.x + 5) &&
   decide (py + 5 < obs.y + obs.height - 5) &&
   decide (py + PLAYER_SIZE - 5 > obs.y + 5)) ||
  (decide (obs.type = ObsType.laser) && laserActive obs.state &&
   decide (px + PLAYER_SIZE > obs.x + 5) &&
   decide (px < obs.x + obs.width - 5))

/-- The state effect of a shield-absorbed hit (lines 460-465): SHIELD
removed from the registry, 1000ms of invincibility, a cyan burst. -/
def shieldApply (now : ℤ) (st : GameSt) : GameSt :=
  { st with activePowerUps := st.activePowerUps.delete PowerUpType.SHIELD,
            invincibleUntil := now + 1000,
            particles := st.particles ++
              (burstParticles st.playerPos.1 st.playerPos.2 ["#00ffff"] 30 25 st.rng).1,
            rng := (burstParticles st.playerPos.1 st.playerPos.2 ["#00ffff"] 30 25 st.rng).2 }

/-- The hazard loop body (lines 455-468): on a hit, a held SHIELD is
consumed, 1000ms of invincibility granted and a non-laser obstacle pushed
off-stage; without a shield the death sequence is triggered. -/
def hazardLoop (env : Env) (now : ℤ) : List Obstacle → GameSt → List Obstacle × GameSt
  | [], st => ([], st)
  | o :: os, st =>
      if hitTest st.playerPos.1 st.playerPos.2 o then
        if st.activePowerUps.has PowerUpType.SHIELD then
          ((if o.type ≠ ObsType.laser then { o with x := -1000 } else o) ::
             (hazardLoop env now os (shieldApply now st)).1,
           (hazardLoop env now os (shieldApply now st)).2)
        else
          (o :: (hazardLoop env now os
                  (triggerDeathSequence env st.playerPos.1 st.playerPos.2 st)).1,
           (hazardLoop env now os
             (triggerDeathSequence env st.playerPos.1 st.playerPos.2 st)).2)
      else
        (o :: (hazardLoop env now os st).1, (hazardLoop env now os st).2)

/-- The hazard section (lines 453-469): skipped wholesale while
now < invincibleUntil (the flag is computed once, before the loop). -/
def hazardPhase (env : Env) (now : ℤ) (st : GameSt) : GameSt :=
  if now < st.invincibleUntil then st
  else
    { (hazardLoop env now st.obstacles st).2 with
      obstacles := (hazardLoop env now st.obstacles st).1 }

/-- Index into the 8-element type array of spawnObstacle (line 216-218). -/
def obsTypeAt : ℕ → ObsType
  | 0 => ObsType.spike
  | 1 => ObsType.wall
  | 2 => ObsType.drone
  | 3 => ObsType.mine
  | 4 => ObsType.laser
  | 5 => ObsType.saw
  | 6 => ObsType.stomp
  | _ => ObsType.missile

/-- The per-type initial geometry of a freshly spawned obstacle. -/
structure SpawnGeom where
  width : ℚ
  height : ℚ
  y : ℚ
  state : ObsState
  rng : Rng

/-- Per-type initial geometry and behavior state of spawnObstacle
(lines 219-230), with the type's random draws. -/
def spawnGeom (trig : Trig) (playerY : ℚ) (t : ObsType) (rng : Rng) : SpawnGeom :=
  match t with
  | ObsType.spike =>
      { width := 30, height := 30, y := GROUND_Y - 30, state := ObsState.plain, rng := rng }
  | ObsType.wall =>
      { width := 30, height := 60, y := GROUND_Y - 60, state := ObsState.plain, rng := rng }
  | ObsType.drone =>
      { width := 30, height := 30, y := GROUND_Y - 80 - (rng.next.1) * 50,
        state := ObsState.plain, rng := rng.next.2 }
  | ObsType.mine =>
      { width := 25, height := 25, y := GROUND_Y - 100 - (rng.next.1) * 100,
        state := ObsState.mineS ((rng.next.2.next.1) * trig.twoPi), rng := rng.next.2.next.2 }
  | ObsType.laser =>
      { width := 20, height := GROUND_Y, y := 0, state := ObsState.laserS 0 false, rng := rng }
  | ObsType.saw =>
      { width := 40, height := 40, y := GROUND_Y - 40, state := ObsState.sawS 0, rng := rng }
  | ObsType.stomp =>
      { width := 60, height := 80, y := -80,
        state := ObsState.stompS StompStage.waiting (1000 + (rng.next.1) * 1000) false,
        rng := rng.next.2 }
  | ObsType.missile =>
      { width := 40, height := 20, y := playerY, state := ObsState.missileS (8 + (rng.next.1) * 5),
        rng := rng.next.2 }

/-- Index into the 3-element power-up type array (lines 203-204). -/
def powerUpTypeAt : ℕ → PowerUpType
  | 0 => PowerUpType.SHIELD
  | 1 => PowerUpType.BOOST
  | _ => PowerUpType.MULTIPLIER

/-- spawnPowerUp (lines 202-213): id draw precedes the y draw, matching the
object-literal evaluation order. -/
def spawnPowerUp (st : GameSt) : GameSt :=
  let (r1, rng) := st.rng.next
  let t := powerUpTypeAt (Rat.floor (r1 * 3)).toNat
  let (rid, rng) := rng.next
  let (r2, rng) := rng.next
  let newP : PowerUpItem :=
    { id := rid, x := CANVAS_WIDTH + 200, y := GROUND_Y - 100 - r2 * 100,
      size := 30, type := t, collected := false }
  { st with powerUps := st.powerUps ++ [newP], rng := rng }

/-- spawnCollectible (lines 192-200). -/
def spawnCollectible (st : GameSt) : GameSt :=
  let (rid, rng) := st.rng.next
  let (r, rng) := rng.next
  let newC : Collectible :=
    { id := rid, x := CANVAS_WIDTH + 200, y := GROUND_Y - 50 - r * 150,
      size := 20, collected := false }
  { st with collectibles := st.collectibles ++ [newC], rng := rng }

/-- Push the new obstacle (lines 232-237): id drawn after the geometry
draws; speedMultiplier frozen from the current score. -/
def spawnPush (t : ObsType) (geom : SpawnGeom) (st : GameSt) : GameSt :=
  { st with
    obstacles := st.obstacles ++
      [{ id := geom.rng.next.1, x := CANVAS_WIDTH + 150, y := geom.y, baseY := geom.y,
         width := geom.width, height := geom.height, type := t,
         speedMultiplier := 1 + st.score / 1000, state := geom.state }],
    rng := geom.rng.next.2 }

/-- The companion roll (lines 239-241): a power-up above 0.85, a
collectible above 0.7, nothing otherwise. -/
def spawnCompanion (st : GameSt) : GameSt :=
  if st.rng.next.1 > 17/20 then spawnPowerUp { st with rng := st.rng.next.2 }
  else if st.rng.next.1 > 7/10 then spawnCollectible { st with rng := st.rng.next.2 }
  else { st with rng := st.rng.next.2 }

/-- spawnObstacle (lines 215-242): the new obstacle is pushed with
speedMultiplier = 1 + scoreRef.current / 1000, then the companion roll may
additionally spawn a power-up (draw > 0.85) or a collectible (draw > 0.7). -/
def spawnObstacle (trig : Trig) (st : GameSt) : GameSt :=
  spawnCompanion
    (spawnPush (obsTypeAt (Rat.floor ((st.rng.next.1) * 8)).toNat)
      (spawnGeom trig st.playerPos.2 (obsTypeAt (Rat.floor ((st.rng.next.1) * 8)).toNat)
        st.rng.next.2)
      st)

/-- The screen-shake bookkeeping (lines 269-277). -/
def shakePhase (dt : ℚ) (st : GameSt) : GameSt :=
  if st.shakeTime > 0 then
    let (r1, rng) := st.rng.next
    let (r2, rng) := rng.next
    { st with shakeTime := st.shakeTime - 16 * dt,
              shakeOffset := ((r1 - 1/2) * 15, (r2 - 1/2) * 15), rng := rng }
  else
    { st with shakeOffset := (0, 0) }

/-- The registry purge phase (lines 283-289; HUD projection omitted). -/
def prunePhase (now : ℤ) (st : GameSt) : GameSt :=
  { st with activePowerUps := st.activePowerUps.prune now }

/-- Horizontal movement from held keys (lines 295-318); skipped while
dying.  ArrowRight/KeyD wins over ArrowLeft/KeyA when both are held. -/
def movePhase (inp : InputState) (currentSpeed dt : ℚ) (st : GameSt) : GameSt :=
  if st.isDying then st
  else
    let dir : ℚ := if inp.right then 1 else if inp.left then -1 else 0
    { st with playerPos := (st.playerPos.1 + dir * currentSpeed * dt, st.playerPos.2),
              lastXDir := dir }

/-- Dash-trail ring maintenance (lines 320-323). -/
def dashPhase (st : GameSt) : GameSt :=
  if st.activePowerUps.has PowerUpType.BOOST then
    let trail := st.playerPos :: st.dashTrails
    { st with dashTrails := if trail.length > 12 then trail.dropLast else trail }
  else
    { st with dashTrails := st.dashTrails.dropLast }

/-- Clamp, gravity, vertical integration and ground landing (lines 325-333). -/
def physicsPhase (dt : ℚ) (st : GameSt) : GameSt :=
  let px := max 0 (min st.playerPos.1 (CANVAS_WIDTH - PLAYER_SIZE))
  let vy := st.playerVel.2 + GRAVITY * dt
  let py := st.playerPos.2 + vy * dt
  if py > GROUND_Y - PLAYER_SIZE then
    { st with playerPos := (px, GROUND_Y - PLAYER_SIZE),
              playerVel := (st.playerVel.1, 0), isJumping := false }
  else
    { st with playerPos := (px, py), playerVel := (st.playerVel.1, vy) }

/-- Passive score accrual and the level-up check (lines 336-347): the whole
block is skipped while dying; accrual is (gameSpeed/8) × 2.5 with
MULTIPLIER active and (gameSpeed/8) × 1 otherwise. -/
def scorePhase (isMult : Bool) (gameSpeed : ℚ) (now : ℤ) (st : GameSt) : GameSt :=
  if st.isDying then st
  else
    levelCheck now
      { st with score := st.score + (gameSpeed / 8) * (if isMult then 5/2 else 1) }

/-- The collectible / power-up scroll (lines 410-411). -/
def scrollPickups (gameSpeed : ℚ) (st : GameSt) : GameSt :=
  { st with collectibles :=
              st.collectibles.map (fun (c : Collectible) => { c with x := c.x - gameSpeed }),
            powerUps :=
              st.powerUps.map (fun (p : PowerUpItem) => { p with x := p.x - gameSpeed }) }

/-- The off-screen / collected culls (lines 412, 414-415). -/
def cullOffscreen (st : GameSt) : GameSt :=
  { st with obstacles := st.obstacles.filter (fun o => decide (o.x + o.width > -50)),
            collectibles :=
              st.collectibles.filter (fun c => decide (c.x + c.size > -50) && !c.collected),
            powerUps := st.powerUps.filter (fun p => decide (p.x + p.size > -50) && !p.collected) }

def entitiesPhase (trig : Trig) (env : Env) (now : ℤ) (dt gameSpeed : ℚ)
    (st : GameSt) : GameSt :=
  cullOffscreen (scrollPickups gameSpeed
    { (obstaclesLoop trig env now dt gameSpeed st.obstacles st).2 with
      obstacles := (obstaclesLoop trig env now dt gameSpeed st.obstacles st).1 })

/-- The spawn decision (lines 417-418): while not dying, spawn when the
list is empty or the most recent obstacle has crossed the score-dependent
x threshold. -/
def spawnPhase (trig : Trig) (st : GameSt) : GameSt :=
  if st.isDying then st
  else
    match st.obstacles.getLast? with
    | none => spawnObstacle trig st
    | some last =>
        if last.x < CANVAS_WIDTH - (250 - min (st.score / 30) 150) then
          spawnObstacle trig st
        else st

/-- Particle integration and cleanup (lines 420-425). -/
def particlesPhase (dt : ℚ) (st : GameSt) : GameSt :=
  let moved := st.particles.map (fun (p : Particle) =>
    { p with x := p.x + p.vx * dt, y := p.y + p.vy * dt, life := p.life - (1/50) * dt })
  { st with particles := moved.filter (fun p => decide (p.life > 0)) }

/-- The state after the power-up pickup loop (lines 428-442). -/
def pickupMid (now : ℤ) (st : GameSt) : GameSt :=
  { (powerUpLoop now st.powerUps st).2 with powerUps := (powerUpLoop now st.powerUps st).1 }

/-- The two pickup loops (lines 428-451). -/
def pickupPhase (now : ℤ) (isMult : Bool) (st : GameSt) : GameSt :=
  { (collectibleLoop isMult (pickupMid now st).collectibles (pickupMid now st)).2 with
    collectibles :=
      (collectibleLoop isMult (pickupMid now st).collectibles (pickupMid now st)).1 }

/-- The pickup and hazard sections together (lines 427-470): both are
skipped wholesale while dying. -/
def hazardSection (env : Env) (now : ℤ) (isMult : Bool) (st : GameSt) : GameSt :=
  if st.isDying then st else hazardPhase env now (pickupPhase now isMult st)

/-- The background parallax scroll (line 471). -/
def bgPhase (g : ℚ) (st : GameSt) : GameSt :=
  { st with backgroundOffset := st.backgroundOffset - g / 2 }

/-- Phases up to the vertical physics (lines 266-333): screen shake, expiry
purge, horizontal movement at PLAYER_SPEED × 1.6 under BOOST, dash trail,
clamp/gravity/landing.  dt is the time scale read at the top of the tick. -/
def playerPhases (inp : InputState) (now : ℤ) (st : GameSt) : GameSt :=
  physicsPhase st.timeScale
    (dashPhase
      (movePhase inp
        (PLAYER_SPEED *
          (if (prunePhase now (shakePhase st.timeScale st)).activePowerUps.has PowerUpType.BOOST
           then 8/5 else 1))
        st.timeScale
        (prunePhase now (shakePhase st.timeScale st))))

/-- Phases from the score accrual to the end of the tick (lines 335-471),
given the tick's time scale dt, world-scroll speed g and the MULTIPLIER
flag captured at the top of the tick. -/
def tailPhases (trig : Trig) (env : Env) (now : ℤ) (dt g : ℚ) (isMult : Bool)
    (st : GameSt) : GameSt :=
  bgPhase g
    (hazardSection env now isMult
      (particlesPhase dt
        (spawnPhase trig
          (entitiesPhase trig env now dt g
            (scorePhase isMult g now st)))))

/-- The per-frame simulation step `update` (lines 264-472).  Re-creates the
source's statement order: the MULTIPLIER flag is read before the expiry
purge, and the world-scroll speed (6 + score/1200) × dt is computed from
the score as it stands after the physics phases (the score is not written
before that point).  Returns the state unchanged unless the session is
PLAYING. -/
def update (gs : GameState) (inp : InputState) (trig : Trig) (env : Env)
    (now : ℤ) (st : GameSt) : GameSt :=
  if gs = GameState.PLAYING then
    tailPhases trig env now st.timeScale
      ((6 + (playerPhases inp now st).score / 1200) * st.timeScale)
      ((shakePhase st.timeScale st).activePowerUps.has PowerUpType.MULTIPLIER)
      (playerPhases inp now st)
  else st

/-- resetGame (lines 98-123): full session reset (the pending death timeout
is cancelled; isJumping is not touched by the source reset either). -/
def resetGame (st : GameSt) : GameSt :=
  { st with score := 0, lastLevel := 1,
            obstacles := [], collectibles := [], powerUps := [], particles := [],
            dashTrails := [], nearMissed := [], activePowerUps := Registry.empty,
            playerPos := (PLAYER_X, GROUND_Y - PLAYER_SIZE), playerVel := (0, 0),
            lastXDir := 0, isDying := false, invincibleUntil := 0, timeScale := 1,
            shakeTime := 0, shakeOffset := (0, 0) }

/-- A run of PLAYING ticks with per-tick inputs and timestamps. -/
def ticksPlaying (trig : Trig) (env : Env) (ps : List (InputState × ℤ))
    (st : GameSt) : GameSt :=
  ps.foldl (fun s p => update GameState.PLAYING p.1 trig env p.2 s) st

/-- A fixed random stream (every draw 1/2) for concrete evaluations. -/
def rng0 : Rng :=
  { seq := fun _ => 1/2, idx := 0 }

/-- A fixed trig model for concrete evaluations. -/
def trig0 : Trig :=
  { sinQ := fun _ => 0, cosQ := fun _ => 0, twoPi := 0 }

/-- Concrete environment colors for evaluations. -/
def env0 : Env :=
  { primaryColor := "#22d3ee", secondaryColor := "#818cf8" }

/-- No keys held. -/
def inp0 : InputState :=
  { left := false, right := false }

/-- A freshly reset baseline state over the fixed random stream. -/
def st0 : GameSt :=
  { score := 0, lastLevel := 1, isDying := false, invincibleUntil := 0, timeScale := 1,
    playerPos := (PLAYER_X, GROUND_Y - PLAYER_SIZE), playerVel := (0, 0), isJumping := false,
    lastXDir := 0, obstacles := [], collectibles := [], powerUps := [], particles := [],
    dashTrails := [], nearMissed := [], activePowerUps := Registry.empty,
    backgroundOffset := 0, shakeTime := 0, shakeOffset := (0, 0), events := [], rng := rng0 }

/-- A wall obstacle overlapping the baseline player box. -/
def oWall : Obstacle :=
  { id := 7, x := 90, y := 260, baseY := 260, width := 60, height := 60,
    type := ObsType.wall, speedMultiplier := 1, state := ObsState.plain }

/-- A spike obstacle centred on the baseline player position. -/
def oSpike : Obstacle :=
  { id := 8, x := 100, y := 290, baseY := 290, width := 30, height := 30,
    type := ObsType.spike, speedMultiplier := 1, state := ObsState.plain }

/-- An active laser whose band covers the baseline player position. -/
def oLaser : Obstacle :=
  { id := 9, x := 95, y := 0, baseY := 0, width := 20, height := 320,
    type := ObsType.laser, speedMultiplier := 1, state := ObsState.laserS 0 true }

/-- A collectible overlapping the baseline player box. -/
def cW : Collectible :=
  { id := 5, x := 95, y := 285, size := 20, collected := false }

/-- A registry holding only a SHIELD that expires far in the future. -/
def regShield : Registry :=
  { shield := some 999999, boost := none, multiplier := none }

/-- Baseline state with one overlapping wall and an active SHIELD. -/
def stC2 : GameSt := { st0 with obstacles := [oWall], activePowerUps := regShield }

/-- Baseline state with two overlapping obstacles and no power-up. -/
def stC3 : GameSt := { st0 with obstacles := [oWall, oSpike] }

/-- A mid-death state. -/
def stDying : GameSt := { st0 with isDying := true, timeScale := 3/20, score := 1234 }

set_option maxRecDepth 8000

set_option maxHeartbeats 2000000

theorem shakePhase_score (dt : ℚ) (st : GameSt) : (shakePhase dt st).score = st.score := by
  unfold shakePhase; split <;> rfl

theorem shakePhase_isDying (dt : ℚ) (st : GameSt) : (shakePhase dt st).isDying = st.isDying := by
  unfold shakePhase; split <;> rfl

theorem shakePhase_lastLevel (dt : ℚ) (st : GameSt) :
    (shakePhase dt st).lastLevel = st.lastLevel := by
  unfold shakePhase; split <;> rfl

theorem shakePhase_events (dt : ℚ) (st : GameSt) : (shakePhase dt st).events = st.events := by
  unfold shakePhase; split <;> rfl

theorem shakePhase_nearMissed (dt : ℚ) (st : GameSt) :
    (shakePhase dt st).nearMissed = st.nearMissed := by
  unfold shakePhase; split <;> rfl

theorem shakePhase_obstacles (dt : ℚ) (st : GameSt) :
    (shakePhase dt st).obstacles = st.obstacles := by
  unfold shakePhase; split <;> rfl

theorem prunePhase_score (now : ℤ) (st : GameSt) : (prunePhase now st).score = st.score := rfl

theorem prunePhase_isDying (now : ℤ) (st : GameSt) :
    (prunePhase now st).isDying = st.isDying := rfl

theorem prunePhase_lastLevel (now : ℤ) (st : GameSt) :
    (prunePhase now st).lastLevel = st.lastLevel := rfl

theorem prunePhase_events (now : ℤ) (st : GameSt) : (prunePhase now st).events = st.events := rfl

theorem prunePhase_nearMissed (now : ℤ) (st : GameSt) :
    (prunePhase now st).nearMissed = st.nearMissed := rfl

theorem prunePhase_obstacles (now : ℤ) (st : GameSt) :
    (prunePhase now st).obstacles = st.obstacles := rfl

theorem movePhase_score (inp : InputState) (cs dt : ℚ) (st : GameSt) :
    (movePhase inp cs dt st).score = st.score := by
  unfold movePhase; split <;> rfl

theorem movePhase_isDying (inp : InputState) (cs dt : ℚ) (st : GameSt) :
    (movePhase inp cs dt st).isDying = st.isDying := by
  unfold movePhase; split <;> rfl

theorem movePhase_lastLevel (inp : InputState) (cs dt : ℚ) (st : GameSt) :
    (movePhase inp cs dt st).lastLevel = st.lastLevel := by
  unfold movePhase; split <;> rfl

theorem movePhase_events (inp : InputState) (cs dt : ℚ) (st : GameSt) :
    (movePhase inp cs dt st).events = st.events := by
  unfold movePhase; split <;> rfl

theorem movePhase_nearMissed (inp : InputState) (cs dt : ℚ) (st : GameSt) :
    (movePhase inp cs dt st).nearMissed = st.nearMissed := by
  unfold movePhase; split <;> rfl

theorem movePhase_obstacles (inp : InputState) (cs dt : ℚ) (st : GameSt) :
    (movePhase inp cs dt st).obstacles = st.obstacles := by
  unfold movePhase; split <;> rfl

theorem dashPhase_score (st : GameSt) : (dashPhase st).score = st.score := by
  unfold dashPhase; split <;> rfl

theorem dashPhase_isDying (st : GameSt) : (dashPhase st).isDying = st.isDying := by
  unfold dashPhase; split <;> rfl

theorem dashPhase_lastLevel (st : GameSt) : (dashPhase st).lastLevel = st.lastLevel := by
  unfold dashPhase; split <;> rfl

theorem dashPhase_events (st : GameSt) : (dashPhase st).events = st.events := by
  unfold dashPhase; split <;> rfl

theorem dashPhase_nearMissed (st : GameSt) : (dashPhase st).nearMissed = st.nearMissed := by
  unfold dashPhase; split <;> rfl

theorem dashPhase_obstacles (st : GameSt) : (dashPhase st).obstacles = st.obstacles := by
  unfold dashPhase; split <;> rfl

theorem physicsPhase_score (dt : ℚ) (st : GameSt) : (physicsPhase dt st).score = st.score := by
  simp only [physicsPhase]; split <;> rfl

theorem physicsPhase_isDying (dt : ℚ) (st : GameSt) :
    (physicsPhase dt st).isDying = st.isDying := by
  simp only [physicsPhase]; split <;> rfl

theorem physicsPhase_lastLevel (dt : ℚ) (st : GameSt) :
    (physicsPhase dt st).lastLevel = st.lastLevel := by
  simp only [physicsPhase]; split <;> rfl

theorem physicsPhase_events (dt : ℚ) (st : GameSt) :
    (physicsPhase dt st).events = st.events := by
  simp only [physicsPhase]; split <;> rfl

theorem physicsPhase_nearMissed (dt : ℚ) (st : GameSt) :
    (physicsPhase dt st).nearMissed = st.nearMissed := by
  simp only [physicsPhase]; split <;> rfl

theorem physicsPhase_obstacles (dt : ℚ) (st : GameSt) :
    (physicsPhase dt st).obstacles = st.obstacles := by
  simp only [physicsPhase]; split <;> rfl

theorem playerPhases_score (inp : InputState) (now : ℤ) (st : GameSt) :
    (playerPhases inp now st).score = st.score := by
  simp [playerPhases, physicsPhase_score, dashPhase_score, movePhase_score,
    prunePhase_score, shakePhase_score]

theorem playerPhases_isDying (inp : InputState) (now : ℤ) (st : GameSt) :
    (playerPhases inp now st).isDying = st.isDying := by
  simp [playerPhases, physicsPhase_isDying, dashPhase_isDying, movePhase_isDying,
    prunePhase_isDying, shakePhase_isDying]

theorem playerPhases_lastLevel (inp : InputState) (now : ℤ) (st : GameSt) :
    (playerPhases inp now st).lastLevel = st.lastLevel := by
  simp [playerPhases, physicsPhase_lastLevel, dashPhase_lastLevel, movePhase_lastLevel,
    prunePhase_lastLevel, shakePhase_lastLevel]

theorem playerPhases_events (inp : InputState) (now : ℤ) (st : GameSt) :
    (playerPhases inp now st).events = st.events := by
  simp [playerPhases, physicsPhase_events, dashPhase_events, movePhase_events,
    prunePhase_events, shakePhase_events]

theorem playerPhases_nearMissed (inp : InputState) (now : ℤ) (st : GameSt) :
    (playerPhases inp now st).nearMissed = st.nearMissed := by
  simp [playerPhases, physicsPhase_nearMissed, dashPhase_nearMissed, movePhase_nearMissed,
    prunePhase_nearMissed, shakePhase_nearMissed]

theorem playerPhases_obstacles (inp : InputState) (now : ℤ) (st : GameSt) :
    (playerPhases inp now st).obstacles = st.obstacles := by
  simp [playerPhases, physicsPhase_obstacles, dashPhase_obstacles, movePhase_obstacles,
    prunePhase_obstacles, shakePhase_obstacles]

theorem bgPhase_score (g : ℚ) (st : GameSt) : (bgPhase g st).score = st.score := rfl

theorem bgPhase_isDying (g : ℚ) (st : GameSt) : (bgPhase g st).isDying = st.isDying := rfl

theorem bgPhase_lastLevel (g : ℚ) (st : GameSt) : (bgPhase g st).lastLevel = st.lastLevel := rfl

theorem bgPhase_events (g : ℚ) (st : GameSt) : (bgPhase g st).events = st.events := rfl

theorem bgPhase_nearMissed (g : ℚ) (st : GameSt) :
    (bgPhase g st).nearMissed = st.nearMissed := rfl

theorem bgPhase_obstacles (g : ℚ) (st : GameSt) : (bgPhase g st).obstacles = st.obstacles := rfl

theorem levelCheck_score (now : ℤ) (st : GameSt) : (levelCheck now st).score = st.score := by
  simp only [levelCheck]; split <;> rfl

theorem levelCheck_isDying (now : ℤ) (st : GameSt) :
    (levelCheck now st).isDying = st.isDying := by
  simp only [levelCheck]; split <;> rfl

theorem levelCheck_nearMissed (now : ℤ) (st : GameSt) :
    (levelCheck now st).nearMissed = st.nearMissed := by
  simp only [levelCheck]; split <;> rfl

theorem levelCheck_obstacles (now : ℤ) (st : GameSt) :
    (levelCheck now st).obstacles = st.obstacles := by
  simp only [levelCheck]; split <;> rfl

theorem scorePhase_isDying (m : Bool) (g : ℚ) (now : ℤ) (st : GameSt) :
    (scorePhase m g now st).isDying = st.isDying := by
  unfold scorePhase; split
  case isTrue => rfl
  case isFalse => rw [levelCheck_isDying]

theorem scorePhase_nearMissed (m : Bool) (g : ℚ) (now : ℤ) (st : GameSt) :
    (scorePhase m g now st).nearMissed = st.nearMissed := by
  unfold scorePhase; split
  case isTrue => rfl
  case isFalse => rw [levelCheck_nearMissed]

theorem scorePhase_obstacles (m : Bool) (g : ℚ) (now : ℤ) (st : GameSt) :
    (scorePhase m g now st).obstacles = st.obstacles := by
  unfold scorePhase; split
  case isTrue => rfl
  case isFalse => rw [levelCheck_obstacles]

theorem scorePhase_of_dying (m : Bool) (g : ℚ) (now : ℤ) (st : GameSt)
    (h : st.isDying = true) : scorePhase m g now st = st := by
  unfold scorePhase; simp [h]

theorem scorePhase_score_alive (m : Bool) (g : ℚ) (now : ℤ) (st : GameSt)
    (h : st.isDying = false) :
    (scorePhase m g now st).score = st.score + (g / 8) * (if m then 5/2 else 1) := by
  unfold scorePhase; simp [h, levelCheck_score]

theorem scorePhase_score_le (m : Bool) (g : ℚ) (now : ℤ) (st : GameSt) (hg : 0 ≤ g) :
    st.score ≤ (scorePhase m g now st).score := by
  unfold scorePhase; split
  case isTrue => exact le_refl _
  case isFalse =>
    rw [levelCheck_score]
    have : 0 ≤ (g / 8) * (if m then (5:ℚ)/2 else 1) := by
      apply mul_nonneg (by positivity)
      split <;> norm_num
    linarith

theorem nearMissCheck_isDying (o : Obstacle) (st : GameSt) :
    (nearMissCheck o st).isDying = st.isDying := by
  simp only [nearMissCheck]; (repeat' split) <;> rfl

theorem nearMissCheck_lastLevel (o : Obstacle) (st : GameSt) :
    (nearMissCheck o st).lastLevel = st.lastLevel := by
  simp only [nearMissCheck]; (repeat' split) <;> rfl

theorem nearMissCheck_of_dying (o : Obstacle) (st : GameSt) (h : st.isDying = true) :
    nearMissCheck o st = st := by
  unfold nearMissCheck; simp [h]

theorem nearMissCheck_score_le (o : Obstacle) (st : GameSt) :
    st.score ≤ (nearMissCheck o st).score := by
  simp only [nearMissCheck]; split
  · split
    · exact le_add_of_nonneg_right (by norm_num)
    · exact le_refl _
  · exact le_refl _

theorem nearMissCheck_nearMissed_suffix (o : Obstacle) (st : GameSt) :
    st.nearMissed <:+ (nearMissCheck o st).nearMissed := by
  simp only [nearMissCheck]; split
  · split
    · exact List.suffix_cons o.id st.nearMissed
    · exact List.suffix_refl _
  · exact List.suffix_refl _

theorem nearMissCheck_luCount (o : Obstacle) (st : GameSt) :
    ((nearMissCheck o st).events).count SocialEvent.LEVEL_UP =
      st.events.count SocialEvent.LEVEL_UP := by
  simp only [nearMissCheck]; split
  · split
    · simp [List.count_append, List.count_cons]
    · rfl
  · rfl

theorem obstacleBehave_sm (trig : Trig) (env : Env) (now : ℤ) (dt g : ℚ)
    (obs : Obstacle) (rng : Rng) (ps : List Particle) :
    ((obstacleBehave trig env now dt g obs rng ps).1).speedMultiplier = obs.speedMultiplier := by
  rcases obs with ⟨i, x, y, b, w, h, t, sm, s⟩
  cases t <;>
    rcases s with _ | ph | ⟨tm, ac⟩ | rt | ⟨stg, tm, ip⟩ | sp <;>
    (try cases stg) <;>
    simp only [obstacleBehave] <;>
    (repeat' split) <;> rfl

theorem obstacleStep_sm (trig : Trig) (env : Env) (now : ℤ) (dt g : ℚ)
    (o : Obstacle) (st : GameSt) :
    ((obstacleStep trig env now dt g o st).1).speedMultiplier = o.speedMultiplier := by
  unfold obstacleStep
  exact obstacleBehave_sm trig env now dt g o st.rng st.particles

theorem obstacleStep_snd_isDying (trig : Trig) (env : Env) (now : ℤ) (dt g : ℚ)
    (o : Obstacle) (st : GameSt) :
    ((obstacleStep trig env now dt g o st).2).isDying = st.isDying := by
  unfold obstacleStep
  exact nearMissCheck_isDying _ _

theorem obstacleStep_snd_lastLevel (trig : Trig) (env : Env) (now : ℤ) (dt g : ℚ)
    (o : Obstacle) (st : GameSt) :
    ((obstacleStep trig env now dt g o st).2).lastLevel = st.lastLevel := by
  unfold obstacleStep
  exact nearMissCheck_lastLevel _ _

theorem obstacleStep_snd_score_le (trig : Trig) (env : Env) (now : ℤ) (dt g : ℚ)
    (o : Obstacle) (st : GameSt) :
    st.score ≤ ((obstacleStep trig env now dt g o st).2).score := by
  unfold obstacleStep
  exact nearMissCheck_score_le _ _

theorem obstacleStep_snd_nearMissed_suffix (trig : Trig) (env : Env) (now : ℤ) (dt g : ℚ)
    (o : Obstacle) (st : GameSt) :
    st.nearMissed <:+ ((obstacleStep trig env now dt g o st).2).nearMissed := by
  unfold obstacleStep
  show st.nearMissed <:+
    (nearMissCheck (obstacleBehave trig env now dt g o st.rng st.particles).1
      { st with rng := (obstacleBehave trig env now dt g o st.rng st.particles).2.1,
                particles := (obstacleBehave trig env now dt g o st.rng st.particles).2.2 }).nearMissed
  exact nearMissCheck_nearMissed_suffix
    (obstacleBehave trig env now dt g o st.rng st.particles).1
    { st with rng := (obstacleBehave trig env now dt g o st.rng st.particles).2.1,
              particles := (obstacleBehave trig env now dt g o st.rng st.particles).2.2 }

theorem obstacleStep_snd_luCount (trig : Trig) (env : Env) (now : ℤ) (dt g : ℚ)
    (o : Obstacle) (st : GameSt) :
    (((obstacleStep trig env now dt g o st).2).events).count SocialEvent.LEVEL_UP =
      st.events.count SocialEvent.LEVEL_UP := by
  unfold obstacleStep
  exact nearMissCheck_luCount _ _

theorem obstacleStep_snd_of_dying (trig : Trig) (env : Env) (now : ℤ) (dt g : ℚ)
    (o : Obstacle) (st : GameSt) (h : st.isDying = true) :
    ((obstacleStep trig env now dt g o st).2).score = st.score ∧
    ((obstacleStep trig env now dt g o st).2).events = st.events ∧
    ((obstacleStep trig env now dt g o st).2).nearMissed = st.nearMissed := by
  unfold obstacleStep
  have h2 := nearMissCheck_of_dying (obstacleBehave trig env now dt g o st.rng st.particles).1
    { st with rng := (obstacleBehave trig env now dt g o st.rng st.particles).2.1,
              particles := (obstacleBehave trig env now dt g o st.rng st.particles).2.2 } h
  refine ⟨?_, ?_, ?_⟩
  · show (nearMissCheck (obstacleBehave trig env now dt g o st.rng st.particles).1
      { st with rng := (obstacleBehave trig env now dt g o st.rng st.particles).2.1,
                particles := (obstacleBehave trig env now dt g o st.rng st.particles).2.2 }).score =
      st.score
    rw [h2]
  · show (nearMissCheck (obstacleBehave trig env now dt g o st.rng st.particles).1
      { st with rng := (obstacleBehave trig env now dt g o st.rng st.particles).2.1,
                particles := (obstacleBehave trig env now dt g o st.rng st.particles).2.2 }).events =
      st.events
    rw [h2]
  · show (nearMissCheck (obstacleBehave trig env now dt g o st.rng st.particles).1
      { st with rng := (obstacleBehave trig env now dt g o st.rng st.particles).2.1,
                particles := (obstacleBehave trig env now dt g o st.rng st.particles).2.2 }).nearMissed =
      st.nearMissed
    rw [h2]

theorem obstaclesLoop_cons (trig : Trig) (env : Env) (now : ℤ) (dt g : ℚ)
    (o : Obstacle) (os : List Obstacle) (st : GameSt) :
    obstaclesLoop trig env now dt g (o :: os) st =
      ((obstacleStep trig env now dt g o st).1 ::
         (obstaclesLoop trig env now dt g os ((obstacleStep trig env now dt g o st).2)).1,
       (obstaclesLoop trig env now dt g os ((obstacleStep trig env now dt g o st).2)).2) := rfl

theorem obstaclesLoop_snd_isDying (trig : Trig) (env : Env) (now : ℤ) (dt g : ℚ)
    (l : List Obstacle) (st : GameSt) :
    ((obstaclesLoop trig env now dt g l st).2).isDying = st.isDying := by
  induction l generalizing st with
  | nil => rfl
  | cons o os ih =>
      rw [obstaclesLoop_cons]
      exact (ih _).trans (obstacleStep_snd_isDying trig env now dt g o st)

theorem obstaclesLoop_snd_lastLevel (trig : Trig) (env : Env) (now : ℤ) (dt g : ℚ)
    (l : List Obstacle) (st : GameSt) :
    ((obstaclesLoop trig env now dt g l st).2).lastLevel = st.lastLevel := by
  induction l generalizing st with
  | nil => rfl
  | cons o os ih =>
      rw [obstaclesLoop_cons]
      exact (ih _).trans (obstacleStep_snd_lastLevel trig env now dt g o st)

theorem obstaclesLoop_snd_score_le (trig : Trig) (env : Env) (now : ℤ) (dt g : ℚ)
    (l : List Obstacle) (st : GameSt) :
    st.score ≤ ((obstaclesLoop trig env now dt g l st).2).score := by
  induction l generalizing st with
  | nil => exact le_refl _
  | cons o os ih =>
      rw [obstaclesLoop_cons]
      exact le_trans (obstacleStep_snd_score_le trig env now dt g o st) (ih _)

theorem obstaclesLoop_snd_nearMissed_suffix (trig : Trig) (env : Env) (now : ℤ) (dt g : ℚ)
    (l : List Obstacle) (st : GameSt) :
    st.nearMissed <:+ ((obstaclesLoop trig env now dt g l st).2).nearMissed := by
  induction l generalizing st with
  | nil => exact List.suffix_refl _
  | cons o os ih =>
      rw [obstaclesLoop_cons]
      exact (obstacleStep_snd_nearMissed_suffix trig env now dt g o st).trans (ih _)

theorem obstaclesLoop_snd_luCount (trig : Trig) (env : Env) (now : ℤ) (dt g : ℚ)
    (l : List Obstacle) (st : GameSt) :
    (((obstaclesLoop trig env now dt g l st).2).events).count SocialEvent.LEVEL_UP =
      st.events.count SocialEvent.LEVEL_UP := by
  induction l generalizing st with
  | nil => rfl
  | cons o os ih =>
      rw [obstaclesLoop_cons]
      exact (ih _).trans (obstacleStep_snd_luCount trig env now dt g o st)

theorem obstaclesLoop_snd_of_dying (trig : Trig) (env : Env) (now : ℤ) (dt g : ℚ)
    (l : List Obstacle) (st : GameSt) (h : st.isDying = true) :
    ((obstaclesLoop trig env now dt g l st).2).score = st.score ∧
    ((obstaclesLoop trig env now dt g l st).2).events = st.events ∧
    ((obstaclesLoop trig env now dt g l st).2).nearMissed = st.nearMissed := by
  induction l generalizing st with
  | nil => exact ⟨rfl, rfl, rfl⟩
  | cons o os ih =>
      rw [obstaclesLoop_cons]
      have h1 := obstacleStep_snd_of_dying trig env now dt g o st h
      have hd := obstacleStep_snd_isDying trig env now dt g o st
      have h2 := ih ((obstacleStep trig env now dt g o st).2) (by rw [hd, h])
      exact ⟨h2.1.trans h1.1, h2.2.1.trans h1.2.1, h2.2.2.trans h1.2.2⟩

theorem obstaclesLoop_fst_map_sm (trig : Trig) (env : Env) (now : ℤ) (dt g : ℚ)
    (l : List Obstacle) (st : GameSt) :
    ((obstaclesLoop trig env now dt g l st).1).map Obstacle.speedMultiplier =
      l.map Obstacle.speedMultiplier := by
  induction l generalizing st with
  | nil => rfl
  | cons o os ih =>
      rw [obstaclesLoop_cons]
      show ((obstacleStep trig env now dt g o st).1 ::
        (obstaclesLoop trig env now dt g os ((obstacleStep trig env now dt g o st).2)).1).map
          Obstacle.speedMultiplier = _
      rw [List.map_cons, obstacleStep_sm, ih, List.map_cons]

theorem triggerDeath_of_dying (env : Env) (x y : ℚ) (st : GameSt) (h : st.isDying = true) :
    triggerDeathSequence env x y st = st := by
  unfold triggerDeathSequence; simp [h]

theorem triggerDeath_isDying (env : Env) (x y : ℚ) (st : GameSt) (h : st.isDying = false) :
    (triggerDeathSequence env x y st).isDying = true := by
  unfold triggerDeathSequence; simp [h]

theorem triggerDeath_timeScale (env : Env) (x y : ℚ) (st : GameSt) (h : st.isDying = false) :
    (triggerDeathSequence env x y st).timeScale = 3/20 := by
  unfold triggerDeathSequence; simp [h]

theorem triggerDeath_idem (env : Env) (x y : ℚ) (st : GameSt) :
    triggerDeathSequence env x y (triggerDeathSequence env x y st) =
      triggerDeathSequence env x y st := by
  by_cases h : st.isDying = true
  · rw [triggerDeath_of_dying env x y st h, triggerDeath_of_dying env x y st h]
  · have h2 : st.isDying = false := by simpa using h
    exact triggerDeath_of_dying env x y _ (triggerDeath_isDying env x y st h2)

theorem triggerDeath_score (env : Env) (x y : ℚ) (st : GameSt) :
    (triggerDeathSequence env x y st).score = st.score := by
  unfold triggerDeathSequence; split <;> rfl

theorem triggerDeath_events (env : Env) (x y : ℚ) (st : GameSt) :
    (triggerDeathSequence env x y st).events = st.events := by
  unfold triggerDeathSequence; split <;> rfl

theorem triggerDeath_nearMissed (env : Env) (x y : ℚ) (st : GameSt) :
    (triggerDeathSequence env x y st).nearMissed = st.nearMissed := by
  unfold triggerDeathSequence; split <;> rfl

theorem triggerDeath_lastLevel (env : Env) (x y : ℚ) (st : GameSt) :
    (triggerDeathSequence env x y st).lastLevel = st.lastLevel := by
  unfold triggerDeathSequence; split <;> rfl

theorem triggerDeath_obstacles (env : Env) (x y : ℚ) (st : GameSt) :
    (triggerDeathSequence env x y st).obstacles = st.obstacles := by
  unfold triggerDeathSequence; split <;> rfl

theorem triggerDeath_registry (env : Env) (x y : ℚ) (st : GameSt) :
    (triggerDeathSequence env x y st).activePowerUps = st.activePowerUps := by
  unfold triggerDeathSequence; split <;> rfl

theorem triggerDeath_playerPos (env : Env) (x y : ℚ) (st : GameSt) :
    (triggerDeathSequence env x y st).playerPos = st.playerPos := by
  unfold triggerDeathSequence; split <;> rfl

theorem shieldApply_score (now : ℤ) (st : GameSt) : (shieldApply now st).score = st.score := rfl

theorem shieldApply_events (now : ℤ) (st : GameSt) : (shieldApply now st).events = st.events := rfl

theorem shieldApply_nearMissed (now : ℤ) (st : GameSt) :
    (shieldApply now st).nearMissed = st.nearMissed := rfl

theorem shieldApply_isDying (now : ℤ) (st : GameSt) :
    (shieldApply now st).isDying = st.isDying := rfl

theorem shieldApply_lastLevel (now : ℤ) (st : GameSt) :
    (shieldApply now st).lastLevel = st.lastLevel := rfl

theorem hazardLoop_snd_score (env : Env) (now : ℤ) (l : List Obstacle) (st : GameSt) :
    ((hazardLoop env now l st).2).score = st.score := by
  induction l generalizing st with
  | nil => rfl
  | cons o os ih =>
      unfold hazardLoop
      split
      · split
        · exact (ih _).trans (shieldApply_score now st)
        · exact (ih _).trans (triggerDeath_score env st.playerPos.1 st.playerPos.2 st)
      · exact ih st

theorem hazardLoop_snd_events (env : Env) (now : ℤ) (l : List Obstacle) (st : GameSt) :
    ((hazardLoop env now l st).2).events = st.events := by
  induction l generalizing st with
  | nil => rfl
  | cons o os ih =>
      unfold hazardLoop
      split
      · split
        · exact (ih _).trans (shieldApply_events now st)
        · exact (ih _).trans (triggerDeath_events env st.playerPos.1 st.playerPos.2 st)
      · exact ih st

theorem hazardLoop_snd_nearMissed (env : Env) (now : ℤ) (l : List Obstacle) (st : GameSt) :
    ((hazardLoop env now l st).2).nearMissed = st.nearMissed := by
  induction l generalizing st with
  | nil => rfl
  | cons o os ih =>
      unfold hazardLoop
      split
      · split
        · exact (ih _).trans (shieldApply_nearMissed now st)
        · exact (ih _).trans (triggerDeath_nearMissed env st.playerPos.1 st.playerPos.2 st)
      · exact ih st

theorem hazardLoop_snd_lastLevel (env : Env) (now : ℤ) (l : List Obstacle) (st : GameSt) :
    ((hazardLoop env now l st).2).lastLevel = st.lastLevel := by
  induction l generalizing st with
  | nil => rfl
  | cons o os ih =>
      unfold hazardLoop
      split
      · split
        · exact (ih _).trans (shieldApply_lastLevel now st)
        · exact (ih _).trans (triggerDeath_lastLevel env st.playerPos.1 st.playerPos.2 st)
      · exact ih st

theorem hazardLoop_fst_map_sm (env : Env) (now : ℤ) (l : List Obstacle) (st : GameSt) :
    ((hazardLoop env now l st).1).map Obstacle.speedMultiplier =
      l.map Obstacle.speedMultiplier := by
  induction l generalizing st with
  | nil => rfl
  | cons o os ih =>
      unfold hazardLoop
      split
      · split
        · show ((if o.type ≠ ObsType.laser then { o with x := -1000 } else o) ::
            (hazardLoop env now os (shieldApply now st)).1).map Obstacle.speedMultiplier = _
          rw [List.map_cons, ih, List.map_cons]
          congr 1
          split <;> rfl
        · show (o :: (hazardLoop env now os
            (triggerDeathSequence env st.playerPos.1 st.playerPos.2 st)).1).map
              Obstacle.speedMultiplier = _
          rw [List.map_cons, ih, List.map_cons]
      · show (o :: (hazardLoop env now os st).1).map Obstacle.speedMultiplier = _
        rw [List.map_cons, ih, List.map_cons]

theorem hazardLoop_dying_noShield (env : Env) (now : ℤ) (l : List Obstacle) (st : GameSt)
    (hd : st.isDying = true) (hns : st.activePowerUps.has PowerUpType.SHIELD = false) :
    hazardLoop env now l st = (l, st) := by
  induction l with
  | nil => rfl
  | cons o os ih =>
      unfold hazardLoop
      split
      · rw [hns]
        simp only [Bool.false_eq_true, if_false]
        rw [triggerDeath_of_dying env st.playerPos.1 st.playerPos.2 st hd, ih]
      · rw [ih]

theorem hazardLoop_death (env : Env) (now : ℤ) (l : List Obstacle) (st : GameSt)
    (hns : st.activePowerUps.has PowerUpType.SHIELD = false) (hnd : st.isDying = false)
    (hhit : ∃ o ∈ l, hitTest st.playerPos.1 st.playerPos.2 o = true) :
    hazardLoop env now l st =
      (l, triggerDeathSequence env st.playerPos.1 st.playerPos.2 st) := by
  induction l with
  | nil => simp at hhit
  | cons o os ih =>
      unfold hazardLoop
      by_cases hh : hitTest st.playerPos.1 st.playerPos.2 o = true
      · rw [hh]
        simp only [if_true]
        rw [hns]
        simp only [Bool.false_eq_true, if_false]
        rw [hazardLoop_dying_noShield env now os
          (triggerDeathSequence env st.playerPos.1 st.playerPos.2 st)
          (triggerDeath_isDying env st.playerPos.1 st.playerPos.2 st hnd)
          (by rw [triggerDeath_registry]; exact hns)]
      · have hh2 : hitTest st.playerPos.1 st.playerPos.2 o = false := by simpa using hh
        rw [hh2]
        simp only [Bool.false_eq_true, if_false]
        obtain ⟨o2, ho2, hho2⟩ := hhit
        rcases List.mem_cons.mp ho2 with h | h
        · exact absurd (h ▸ hho2) hh
        · rw [ih ⟨o2, h, hho2⟩]

theorem hazardPhase_score (env : Env) (now : ℤ) (st : GameSt) :
    (hazardPhase env now st).score = st.score := by
  unfold hazardPhase
  split
  · rfl
  · exact hazardLoop_snd_score env now st.obstacles st

theorem hazardPhase_events (env : Env) (now : ℤ) (st : GameSt) :
    (hazardPhase env now st).events = st.events := by
  unfold hazardPhase
  split
  · rfl
  · exact hazardLoop_snd_events env now st.obstacles st

theorem hazardPhase_nearMissed (env : Env) (now : ℤ) (st : GameSt) :
    (hazardPhase env now st).nearMissed = st.nearMissed := by
  unfold hazardPhase
  split
  · rfl
  · exact hazardLoop_snd_nearMissed env now st.obstacles st

theorem hazardPhase_lastLevel (env : Env) (now : ℤ) (st : GameSt) :
    (hazardPhase env now st).lastLevel = st.lastLevel := by
  unfold hazardPhase
  split
  · rfl
  · exact hazardLoop_snd_lastLevel env now st.obstacles st

theorem hazardPhase_map_sm (env : Env) (now : ℤ) (st : GameSt) :
    (hazardPhase env now st).obstacles.map Obstacle.speedMultiplier =
      st.obstacles.map Obstacle.speedMultiplier := by
  unfold hazardPhase
  split
  · rfl
  · exact hazardLoop_fst_map_sm env now st.obstacles st

theorem pickupApply_score (now : ℤ) (p : PowerUpItem) (st : GameSt) :
    (pickupApply now p st).score = st.score := rfl

theorem pickupApply_isDying (now : ℤ) (p : PowerUpItem) (st : GameSt) :
    (pickupApply now p st).isDying = st.isDying := rfl

theorem pickupApply_lastLevel (now : ℤ) (p : PowerUpItem) (st : GameSt) :
    (pickupApply now p st).lastLevel = st.lastLevel := rfl

theorem pickupApply_nearMissed (now : ℤ) (p : PowerUpItem) (st : GameSt) :
    (pickupApply now p st).nearMissed = st.nearMissed := rfl

theorem pickupApply_obstacles (now : ℤ) (p : PowerUpItem) (st : GameSt) :
    (pickupApply now p st).obstacles = st.obstacles := rfl

theorem pickupApply_luCount (now : ℤ) (p : PowerUpItem) (st : GameSt) :
    ((pickupApply now p st).events).count SocialEvent.LEVEL_UP =
      st.events.count SocialEvent.LEVEL_UP := by
  show (st.events ++ [SocialEvent.POWERUP]).count SocialEvent.LEVEL_UP = _
  simp [List.count_append, List.count_cons]

theorem powerUpLoop_snd_score (now : ℤ) (l : List PowerUpItem) (st : GameSt) :
    ((powerUpLoop now l st).2).score = st.score := by
  induction l generalizing st with
  | nil => rfl
  | cons p ps ih =>
      unfold powerUpLoop
      split
      · exact (ih _).trans (pickupApply_score now p st)
      · exact ih st

theorem powerUpLoop_snd_isDying (now : ℤ) (l : List PowerUpItem) (st : GameSt) :
    ((powerUpLoop now l st).2).isDying = st.isDying := by
  induction l generalizing st with
  | nil => rfl
  | cons p ps ih =>
      unfold powerUpLoop
      split
      · exact (ih _).trans (pickupApply_isDying now p st)
      · exact ih st

theorem powerUpLoop_snd_lastLevel (now : ℤ) (l : List PowerUpItem) (st : GameSt) :
    ((powerUpLoop now l st).2).lastLevel = st.lastLevel := by
  induction l generalizing st with
  | nil => rfl
  | cons p ps ih =>
      unfold powerUpLoop
      split
      · exact (ih _).trans (pickupApply_lastLevel now p st)
      · exact ih st

theorem powerUpLoop_snd_nearMissed (now : ℤ) (l : List PowerUpItem) (st : GameSt) :
    ((powerUpLoop now l st).2).nearMissed = st.nearMissed := by
  induction l generalizing st with
  | nil => rfl
  | cons p ps ih =>
      unfold powerUpLoop
      split
      · exact (ih _).trans (pickupApply_nearMissed now p st)
      · exact ih st

theorem powerUpLoop_snd_obstacles (now : ℤ) (l : List PowerUpItem) (st : GameSt) :
    ((powerUpLoop now l st).2).obstacles = st.obstacles := by
  induction l generalizing st with
  | nil => rfl
  | cons p ps ih =>
      unfold powerUpLoop
      split
      · exact (ih _).trans (pickupApply_obstacles now p st)
      · exact ih st

theorem powerUpLoop_snd_luCount (now : ℤ) (l : List PowerUpItem) (st : GameSt) :
    (((powerUpLoop now l st).2).events).count SocialEvent.LEVEL_UP =
      st.events.count SocialEvent.LEVEL_UP := by
  induction l generalizing st with
  | nil => rfl
  | cons p ps ih =>
      unfold powerUpLoop
      split
      · exact (ih _).trans (pickupApply_luCount now p st)
      · exact ih st

theorem collectApply_score (m : Bool) (c : Collectible) (st : GameSt) :
    (collectApply m c st).score = st.score + (if m then 300 else 100) := rfl

theorem collectApply_score_le (m : Bool) (c : Collectible) (st : GameSt) :
    st.score ≤ (collectApply m c st).score := by
  rw [collectApply_score]
  apply le_add_of_nonneg_right
  split <;> norm_num

theorem collectApply_isDying (m : Bool) (c : Collectible) (st : GameSt) :
    (collectApply m c st).isDying = st.isDying := rfl

theorem collectApply_lastLevel (m : Bool) (c : Collectible) (st : GameSt) :
    (collectApply m c st).lastLevel = st.lastLevel := rfl

theorem collectApply_nearMissed (m : Bool) (c : Collectible) (st : GameSt) :
    (collectApply m c st).nearMissed = st.nearMissed := rfl

theorem collectApply_obstacles (m : Bool) (c : Collectible) (st : GameSt) :
    (collectApply m c st).obstacles = st.obstacles := rfl

theorem collectApply_luCount (m : Bool) (c : Collectible) (st : GameSt) :
    ((collectApply m c st).events).count SocialEvent.LEVEL_UP =
      st.events.count SocialEvent.LEVEL_UP := by
  show (st.events ++ [SocialEvent.COLLECT]).count SocialEvent.LEVEL_UP = _
  simp [List.count_append, List.count_cons]

theorem collectibleLoop_snd_score_le (m : Bool) (l : List Collectible) (st : GameSt) :
    st.score ≤ ((collectibleLoop m l st).2).score := by
  induction l generalizing st with
  | nil => exact le_refl _
  | cons c cs ih =>
      unfold collectibleLoop
      split
      · exact le_trans (collectApply_score_le m c st) (ih _)
      · exact ih st

theorem collectibleLoop_snd_isDying (m : Bool) (l : List Collectible) (st : GameSt) :
    ((collectibleLoop m l st).2).isDying = st.isDying := by
  induction l generalizing st with
  | nil => rfl
  | cons c cs ih =>
      unfold collectibleLoop
      split
      · exact (ih _).trans (collectApply_isDying m c st)
      · exact ih st

theorem collectibleLoop_snd_lastLevel (m : Bool) (l : List Collectible) (st : GameSt) :
    ((collectibleLoop m l st).2).lastLevel = st.lastLevel := by
  induction l generalizing st with
  | nil => rfl
  | cons c cs ih =>
      unfold collectibleLoop
      split
      · exact (ih _).trans (collectApply_lastLevel m c st)
      · exact ih st

theorem collectibleLoop_snd_nearMissed (m : Bool) (l : List Collectible) (st : GameSt) :
    ((collectibleLoop m l st).2).nearMissed = st.nearMissed := by
  induction l generalizing st with
  | nil => rfl
  | cons c cs ih =>
      unfold collectibleLoop
      split
      · exact (ih _).trans (collectApply_nearMissed m c st)
      · exact ih st

theorem collectibleLoop_snd_obstacles (m : Bool) (l : List Collectible) (st : GameSt) :
    ((collectibleLoop m l st).2).obstacles = st.obstacles := by
  induction l generalizing st with
  | nil => rfl
  | cons c cs ih =>
      unfold collectibleLoop
      split
      · exact (ih _).trans (collectApply_obstacles m c st)
      · exact ih st

theorem collectibleLoop_snd_luCount (m : Bool) (l : List Collectible) (st : GameSt) :
    (((collectibleLoop m l st).2).events).count SocialEvent.LEVEL_UP =
      st.events.count SocialEvent.LEVEL_UP := by
  induction l generalizing st with
  | nil => rfl
  | cons c cs ih =>
      unfold collectibleLoop
      split
      · exact (ih _).trans (collectApply_luCount m c st)
      · exact ih st

theorem pickupMid_score (now : ℤ) (st : GameSt) : (pickupMid now st).score = st.score := by
  unfold pickupMid
  exact powerUpLoop_snd_score now st.powerUps st

theorem pickupMid_isDying (now : ℤ) (st : GameSt) : (pickupMid now st).isDying = st.isDying := by
  unfold pickupMid
  exact powerUpLoop_snd_isDying now st.powerUps st

theorem pickupMid_lastLevel (now : ℤ) (st : GameSt) :
    (pickupMid now st).lastLevel = st.lastLevel := by
  unfold pickupMid
  exact powerUpLoop_snd_lastLevel now st.powerUps st

theorem pickupMid_nearMissed (now : ℤ) (st : GameSt) :
    (pickupMid now st).nearMissed = st.nearMissed := by
  unfold pickupMid
  exact powerUpLoop_snd_nearMissed now st.powerUps st

theorem pickupMid_obstacles (now : ℤ) (st : GameSt) :
    (pickupMid now st).obstacles = st.obstacles := by
  unfold pickupMid
  exact powerUpLoop_snd_obstacles now st.powerUps st

theorem pickupMid_luCount (now : ℤ) (st : GameSt) :
    ((pickupMid now st).events).count SocialEvent.LEVEL_UP =
      st.events.count SocialEvent.LEVEL_UP := by
  unfold pickupMid
  exact powerUpLoop_snd_luCount now st.powerUps st

theorem pickupPhase_score_le (now : ℤ) (m : Bool) (st : GameSt) :
    st.score ≤ (pickupPhase now m st).score := by
  unfold pickupPhase
  calc st.score ≤ (pickupMid now st).score := le_of_eq (pickupMid_score now st).symm
    _ ≤ _ := collectibleLoop_snd_score_le m (pickupMid now st).collectibles (pickupMid now st)

theorem pickupPhase_isDying (now : ℤ) (m : Bool) (st : GameSt) :
    (pickupPhase now m st).isDying = st.isDying := by
  unfold pickupPhase
  exact (collectibleLoop_snd_isDying m _ _).trans (pickupMid_isDying now st)

theorem pickupPhase_lastLevel (now : ℤ) (m : Bool) (st : GameSt) :
    (pickupPhase now m st).lastLevel = st.lastLevel := by
  unfold pickupPhase
  exact (collectibleLoop_snd_lastLevel m _ _).trans (pickupMid_lastLevel now st)

theorem pickupPhase_nearMissed (now : ℤ) (m : Bool) (st : GameSt) :
    (pickupPhase now m st).nearMissed = st.nearMissed := by
  unfold pickupPhase
  exact (collectibleLoop_snd_nearMissed m _ _).trans (pickupMid_nearMissed now st)

theorem pickupPhase_obstacles (now : ℤ) (m : Bool) (st : GameSt) :
    (pickupPhase now m st).obstacles = st.obstacles := by
  unfold pickupPhase
  exact (collectibleLoop_snd_obstacles m _ _).trans (pickupMid_obstacles now st)

theorem pickupPhase_luCount (now : ℤ) (m : Bool) (st : GameSt) :
    ((pickupPhase now m st).events).count SocialEvent.LEVEL_UP =
      st.events.count SocialEvent.LEVEL_UP := by
  unfold pickupPhase
  exact (collectibleLoop_snd_luCount m _ _).trans (pickupMid_luCount now st)

theorem spawnPowerUp_score (st : GameSt) : (spawnPowerUp st).score = st.score := rfl

theorem spawnPowerUp_events (st : GameSt) : (spawnPowerUp st).events = st.events := rfl

theorem spawnPowerUp_nearMissed (st : GameSt) : (spawnPowerUp st).nearMissed = st.nearMissed := rfl

theorem spawnPowerUp_isDying (st : GameSt) : (spawnPowerUp st).isDying = st.isDying := rfl

theorem spawnPowerUp_lastLevel (st : GameSt) : (spawnPowerUp st).lastLevel = st.lastLevel := rfl

theorem spawnPowerUp_obstacles (st : GameSt) : (spawnPowerUp st).obstacles = st.obstacles := rfl

theorem spawnCollectible_score (st : GameSt) : (spawnCollectible st).score = st.score := rfl

theorem spawnCollectible_events (st : GameSt) : (spawnCollectible st).events = st.events := rfl

theorem spawnCollectible_nearMissed (st : GameSt) :
    (spawnCollectible st).nearMissed = st.nearMissed := rfl

theorem spawnCollectible_isDying (st : GameSt) : (spawnCollectible st).isDying = st.isDying := rfl

theorem spawnCollectible_lastLevel (st : GameSt) :
    (spawnCollectible st).lastLevel = st.lastLevel := rfl

theorem spawnCollectible_obstacles (st : GameSt) :
    (spawnCollectible st).obstacles = st.obstacles := rfl

theorem spawnCompanion_score (st : GameSt) : (spawnCompanion st).score = st.score := by
  unfold spawnCompanion; split
  · rfl
  · split <;> rfl

theorem spawnCompanion_events (st : GameSt) : (spawnCompanion st).events = st.events := by
  unfold spawnCompanion; split
  · rfl
  · split <;> rfl

theorem spawnCompanion_nearMissed (st : GameSt) :
    (spawnCompanion st).nearMissed = st.nearMissed := by
  unfold spawnCompanion; split
  · rfl
  · split <;> rfl

theorem spawnCompanion_isDying (st : GameSt) : (spawnCompanion st).isDying = st.isDying := by
  unfold spawnCompanion; split
  · rfl
  · split <;> rfl

theorem spawnCompanion_lastLevel (st : GameSt) : (spawnCompanion st).lastLevel = st.lastLevel := by
  unfold spawnCompanion; split
  · rfl
  · split <;> rfl

theorem spawnCompanion_obstacles (st : GameSt) : (spawnCompanion st).obstacles = st.obstacles := by
  unfold spawnCompanion; split
  · rfl
  · split <;> rfl

theorem spawnPush_score (t : ObsType) (geom : SpawnGeom) (st : GameSt) :
    (spawnPush t geom st).score = st.score := rfl

theorem spawnPush_events (t : ObsType) (geom : SpawnGeom) (st : GameSt) :
    (spawnPush t geom st).events = st.events := rfl

theorem spawnPush_nearMissed (t : ObsType) (geom : SpawnGeom) (st : GameSt) :
    (spawnPush t geom st).nearMissed = st.nearMissed := rfl

theorem spawnPush_isDying (t : ObsType) (geom : SpawnGeom) (st : GameSt) :
    (spawnPush t geom st).isDying = st.isDying := rfl

theorem spawnPush_lastLevel (t : ObsType) (geom : SpawnGeom) (st : GameSt) :
    (spawnPush t geom st).lastLevel = st.lastLevel := rfl

theorem spawnPush_map_sm (t : ObsType) (geom : SpawnGeom) (st : GameSt) :
    (spawnPush t geom st).obstacles.map Obstacle.speedMultiplier =
      st.obstacles.map Obstacle.speedMultiplier ++ [1 + st.score / 1000] := by
  unfold spawnPush
  simp

theorem spawnObstacle_score (trig : Trig) (st : GameSt) :
    (spawnObstacle trig st).score = st.score := by
  unfold spawnObstacle
  rw [spawnCompanion_score, spawnPush_score]

theorem spawnObstacle_events (trig : Trig) (st : GameSt) :
    (spawnObstacle trig st).events = st.events := by
  unfold spawnObstacle
  rw [spawnCompanion_events, spawnPush_events]

theorem spawnObstacle_nearMissed (trig : Trig) (st : GameSt) :
    (spawnObstacle trig st).nearMissed = st.nearMissed := by
  unfold spawnObstacle
  rw [spawnCompanion_nearMissed, spawnPush_nearMissed]

theorem spawnObstacle_isDying (trig : Trig) (st : GameSt) :
    (spawnObstacle trig st).isDying = st.isDying := by
  unfold spawnObstacle
  rw [spawnCompanion_isDying, spawnPush_isDying]

theorem spawnObstacle_lastLevel (trig : Trig) (st : GameSt) :
    (spawnObstacle trig st).lastLevel = st.lastLevel := by
  unfold spawnObstacle
  rw [spawnCompanion_lastLevel, spawnPush_lastLevel]

theorem spawnObstacle_map_sm (trig : Trig) (st : GameSt) :
    (spawnObstacle trig st).obstacles.map Obstacle.speedMultiplier =
      st.obstacles.map Obstacle.speedMultiplier ++ [1 + st.score / 1000] := by
  unfold spawnObstacle
  rw [spawnCompanion_obstacles]
  exact spawnPush_map_sm _ _ st

theorem spawnPhase_score (trig : Trig) (st : GameSt) : (spawnPhase trig st).score = st.score := by
  unfold spawnPhase
  split
  · rfl
  · split
    · exact spawnObstacle_score trig st
    · split
      · exact spawnObstacle_score trig st
      · rfl

theorem spawnPhase_events (trig : Trig) (st : GameSt) :
    (spawnPhase trig st).events = st.events := by
  unfold spawnPhase
  split
  · rfl
  · split
    · exact spawnObstacle_events trig st
    · split
      · exact spawnObstacle_events trig st
      · rfl

theorem spawnPhase_nearMissed (trig : Trig) (st : GameSt) :
    (spawnPhase trig st).nearMissed = st.nearMissed := by
  unfold spawnPhase
  split
  · rfl
  · split
    · exact spawnObstacle_nearMissed trig st
    · split
      · exact spawnObstacle_nearMissed trig st
      · rfl

theorem spawnPhase_isDying (trig : Trig) (st : GameSt) :
    (spawnPhase trig st).isDying = st.isDying := by
  unfold spawnPhase
  split
  · rfl
  · split
    · exact spawnObstacle_isDying trig st
    · split
      · exact spawnObstacle_isDying trig st
      · rfl

theorem spawnPhase_lastLevel (trig : Trig) (st : GameSt) :
    (spawnPhase trig st).lastLevel = st.lastLevel := by
  unfold spawnPhase
  split
  · rfl
  · split
    · exact spawnObstacle_lastLevel trig st
    · split
      · exact spawnObstacle_lastLevel trig st
      · rfl

theorem spawnPhase_map_sm (trig : Trig) (st : GameSt) :
    (spawnPhase trig st).obstacles.map Obstacle.speedMultiplier =
        st.obstacles.map Obstacle.speedMultiplier ∨
    (spawnPhase trig st).obstacles.map Obstacle.speedMultiplier =
        st.obstacles.map Obstacle.speedMultiplier ++ [1 + st.score / 1000] := by
  unfold spawnPhase
  split
  · exact Or.inl rfl
  · split
    · exact Or.inr (spawnObstacle_map_sm trig st)
    · split
      · exact Or.inr (spawnObstacle_map_sm trig st)
      · exact Or.inl rfl

theorem particlesPhase_score (dt : ℚ) (st : GameSt) : (particlesPhase dt st).score = st.score := rfl

theorem particlesPhase_events (dt : ℚ) (st : GameSt) :
    (particlesPhase dt st).events = st.events := rfl

theorem particlesPhase_nearMissed (dt : ℚ) (st : GameSt) :
    (particlesPhase dt st).nearMissed = st.nearMissed := rfl

theorem particlesPhase_isDying (dt : ℚ) (st : GameSt) :
    (particlesPhase dt st).isDying = st.isDying := rfl

theorem particlesPhase_lastLevel (dt : ℚ) (st : GameSt) :
    (particlesPhase dt st).lastLevel = st.lastLevel := rfl

theorem particlesPhase_obstacles (dt : ℚ) (st : GameSt) :
    (particlesPhase dt st).obstacles = st.obstacles := rfl

theorem scrollPickups_score (g : ℚ) (st : GameSt) : (scrollPickups g st).score = st.score := rfl

theorem scrollPickups_events (g : ℚ) (st : GameSt) : (scrollPickups g st).events = st.events := rfl

theorem scrollPickups_nearMissed (g : ℚ) (st : GameSt) :
    (scrollPickups g st).nearMissed = st.nearMissed := rfl

theorem scrollPickups_isDying (g : ℚ) (st : GameSt) :
    (scrollPickups g st).isDying = st.isDying := rfl

theorem scrollPickups_lastLevel (g : ℚ) (st : GameSt) :
    (scrollPickups g st).lastLevel = st.lastLevel := rfl

theorem scrollPickups_obstacles (g : ℚ) (st : GameSt) :
    (scrollPickups g st).obstacles = st.obstacles := rfl

theorem cullOffscreen_score (st : GameSt) : (cullOffscreen st).score = st.score := rfl

theorem cullOffscreen_events (st : GameSt) : (cullOffscreen st).events = st.events := rfl

theorem cullOffscreen_nearMissed (st : GameSt) :
    (cullOffscreen st).nearMissed = st.nearMissed := rfl

theorem cullOffscreen_isDying (st : GameSt) : (cullOffscreen st).isDying = st.isDying := rfl

theorem cullOffscreen_lastLevel (st : GameSt) : (cullOffscreen st).lastLevel = st.lastLevel := rfl

theorem cullOffscreen_obstacles (st : GameSt) :
    (cullOffscreen st).obstacles =
      st.obstacles.filter (fun o => decide (o.x + o.width > -50)) := rfl

theorem entitiesPhase_score_le (trig : Trig) (env : Env) (now : ℤ) (dt g : ℚ) (st : GameSt) :
    st.score ≤ (entitiesPhase trig env now dt g st).score := by
  unfold entitiesPhase
  rw [cullOffscreen_score, scrollPickups_score]
  exact obstaclesLoop_snd_score_le trig env now dt g st.obstacles st

theorem entitiesPhase_isDying (trig : Trig) (env : Env) (now : ℤ) (dt g : ℚ) (st : GameSt) :
    (entitiesPhase trig env now dt g st).isDying = st.isDying := by
  unfold entitiesPhase
  rw [cullOffscreen_isDying, scrollPickups_isDying]
  exact obstaclesLoop_snd_isDying trig env now dt g st.obstacles st

theorem entitiesPhase_lastLevel (trig : Trig) (env : Env) (now : ℤ) (dt g : ℚ) (st : GameSt) :
    (entitiesPhase trig env now dt g st).lastLevel = st.lastLevel := by
  unfold entitiesPhase
  rw [cullOffscreen_lastLevel, scrollPickups_lastLevel]
  exact obstaclesLoop_snd_lastLevel trig env now dt g st.obstacles st

theorem entitiesPhase_nearMissed_suffix (trig : Trig) (env : Env) (now : ℤ) (dt g : ℚ)
    (st : GameSt) :
    st.nearMissed <:+ (entitiesPhase trig env now dt g st).nearMissed := by
  unfold entitiesPhase
  rw [cullOffscreen_nearMissed, scrollPickups_nearMissed]
  exact obstaclesLoop_snd_nearMissed_suffix trig env now dt g st.obstacles st

theorem entitiesPhase_luCount (trig : Trig) (env : Env) (now : ℤ) (dt g : ℚ) (st : GameSt) :
    ((entitiesPhase trig env now dt g st).events).count SocialEvent.LEVEL_UP =
      st.events.count SocialEvent.LEVEL_UP := by
  unfold entitiesPhase
  rw [cullOffscreen_events, scrollPickups_events]
  exact obstaclesLoop_snd_luCount trig env now dt g st.obstacles st

theorem entitiesPhase_of_dying (trig : Trig) (env : Env) (now : ℤ) (dt g : ℚ) (st : GameSt)
    (h : st.isDying = true) :
    (entitiesPhase trig env now dt g st).score = st.score ∧
    (entitiesPhase trig env now dt g st).events = st.events ∧
    (entitiesPhase trig env now dt g st).nearMissed = st.nearMissed := by
  unfold entitiesPhase
  rw [cullOffscreen_score, scrollPickups_score, cullOffscreen_events, scrollPickups_events,
    cullOffscreen_nearMissed, scrollPickups_nearMissed]
  exact obstaclesLoop_snd_of_dying trig env now dt g st.obstacles st h

theorem entitiesPhase_map_sm (trig : Trig) (env : Env) (now : ℤ) (dt g : ℚ) (st : GameSt) :
    ((entitiesPhase trig env now dt g st).obstacles.map Obstacle.speedMultiplier).Sublist
      (st.obstacles.map Obstacle.speedMultiplier) := by
  unfold entitiesPhase
  rw [cullOffscreen_obstacles, scrollPickups_obstacles]
  have h1 := (List.filter_sublist
    (p := fun o => decide (o.x + o.width > -50))
    ((obstaclesLoop trig env now dt g st.obstacles st).1)).map Obstacle.speedMultiplier
  rw [obstaclesLoop_fst_map_sm] at h1
  exact h1

theorem hazardSection_score_le (env : Env) (now : ℤ) (m : Bool) (st : GameSt) :
    st.score ≤ (hazardSection env now m st).score := by
  unfold hazardSection
  split
  · exact le_refl _
  · rw [hazardPhase_score]
    exact pickupPhase_score_le now m st

theorem hazardSection_of_dying (env : Env) (now : ℤ) (m : Bool) (st : GameSt)
    (h : st.isDying = true) : hazardSection env now m st = st := by
  unfold hazardSection
  simp [h]

theorem hazardSection_lastLevel (env : Env) (now : ℤ) (m : Bool) (st : GameSt) :
    (hazardSection env now m st).lastLevel = st.lastLevel := by
  unfold hazardSection
  split
  · rfl
  · rw [hazardPhase_lastLevel, pickupPhase_lastLevel]

theorem hazardSection_nearMissed (env : Env) (now : ℤ) (m : Bool) (st : GameSt) :
    (hazardSection env now m st).nearMissed = st.nearMissed := by
  unfold hazardSection
  split
  · rfl
  · rw [hazardPhase_nearMissed, pickupPhase_nearMissed]

theorem hazardSection_luCount (env : Env) (now : ℤ) (m : Bool) (st : GameSt) :
    ((hazardSection env now m st).events).count SocialEvent.LEVEL_UP =
      st.events.count SocialEvent.LEVEL_UP := by
  unfold hazardSection
  split
  · rfl
  · rw [hazardPhase_events, pickupPhase_luCount]

theorem hazardSection_map_sm (env : Env) (now : ℤ) (m : Bool) (st : GameSt) :
    (hazardSection env now m st).obstacles.map Obstacle.speedMultiplier =
      st.obstacles.map Obstacle.speedMultiplier := by
  unfold hazardSection
  split
  · rfl
  · rw [hazardPhase_map_sm, pickupPhase_obstacles]

theorem levelCheck_fires (now : ℤ) (st : GameSt)
    (h : st.lastLevel < Rat.floor (st.score / 1000) + 1) :
    levelCheck now st =
      { st with lastLevel := Rat.floor (st.score / 1000) + 1,
                events := st.events ++ [SocialEvent.LEVEL_UP],
                invincibleUntil := now + INVINCIBILITY_DURATION } := by
  unfold levelCheck
  rw [if_pos h]

theorem levelCheck_noFire (now : ℤ) (st : GameSt)
    (h : ¬ st.lastLevel < Rat.floor (st.score / 1000) + 1) :
    levelCheck now st = st := by
  unfold levelCheck
  rw [if_neg h]

theorem levelCheck_idem (now : ℤ) (st : GameSt) :
    levelCheck now (levelCheck now st) = levelCheck now st := by
  by_cases h : st.lastLevel < Rat.floor (st.score / 1000) + 1
  · rw [levelCheck_fires now st h]
    apply levelCheck_noFire
    exact lt_irrefl _
  · rw [levelCheck_noFire now st h, levelCheck_noFire now st h]

theorem levelCheck_lastLevel_le (now : ℤ) (st : GameSt) :
    st.lastLevel ≤ (levelCheck now st).lastLevel := by
  simp only [levelCheck]
  split
  next h => exact le_of_lt h
  next => exact le_refl _

theorem levelCheck_luCount (now : ℤ) (st : GameSt) :
    ((levelCheck now st).events).count SocialEvent.LEVEL_UP ≤
      st.events.count SocialEvent.LEVEL_UP + 1 := by
  by_cases h : st.lastLevel < Rat.floor (st.score / 1000) + 1
  · rw [levelCheck_fires now st h]
    show (st.events ++ [SocialEvent.LEVEL_UP]).count SocialEvent.LEVEL_UP ≤ _
    simp [List.count_append, List.count_cons]
  · rw [levelCheck_noFire now st h]
    exact Nat.le_succ _

theorem scorePhase_lastLevel_le (m : Bool) (g : ℚ) (now : ℤ) (st : GameSt) :
    st.lastLevel ≤ (scorePhase m g now st).lastLevel := by
  unfold scorePhase
  split
  · exact le_refl _
  · exact levelCheck_lastLevel_le now _

theorem scorePhase_luCount (m : Bool) (g : ℚ) (now : ℤ) (st : GameSt) :
    ((scorePhase m g now st).events).count SocialEvent.LEVEL_UP ≤
      st.events.count SocialEvent.LEVEL_UP + 1 := by
  unfold scorePhase
  split
  · exact Nat.le_succ _
  · exact levelCheck_luCount now
      { st with score := st.score + (g / 8) * (if m then (5:ℚ)/2 else 1) }

theorem tailPhases_score_le (trig : Trig) (env : Env) (now : ℤ) (dt g : ℚ) (m : Bool)
    (st : GameSt) (hg : 0 ≤ g) :
    st.score ≤ (tailPhases trig env now dt g m st).score := by
  unfold tailPhases
  rw [bgPhase_score]
  refine le_trans (scorePhase_score_le m g now st hg) ?_
  refine le_trans (entitiesPhase_score_le trig env now dt g _) ?_
  refine le_trans ?_ (hazardSection_score_le env now m _)
  exact le_of_eq ((particlesPhase_score dt _).trans (spawnPhase_score trig _)).symm

theorem tailPhases_of_dying (trig : Trig) (env : Env) (now : ℤ) (dt g : ℚ) (m : Bool)
    (st : GameSt) (h : st.isDying = true) :
    (tailPhases trig env now dt g m st).score = st.score ∧
    (tailPhases trig env now dt g m st).events = st.events ∧
    (tailPhases trig env now dt g m st).nearMissed = st.nearMissed ∧
    (tailPhases trig env now dt g m st).lastLevel = st.lastLevel ∧
    (tailPhases trig env now dt g m st).isDying = true := by
  unfold tailPhases
  rw [scorePhase_of_dying m g now st h]
  have hE := entitiesPhase_of_dying trig env now dt g st h
  have hPd : (particlesPhase dt (spawnPhase trig (entitiesPhase trig env now dt g st))).isDying =
      true := by
    rw [particlesPhase_isDying, spawnPhase_isDying, entitiesPhase_isDying]; exact h
  rw [hazardSection_of_dying env now m _ hPd]
  refine ⟨?_, ?_, ?_, ?_, ?_⟩
  · rw [bgPhase_score, particlesPhase_score, spawnPhase_score]; exact hE.1
  · rw [bgPhase_events, particlesPhase_events, spawnPhase_events]; exact hE.2.1
  · rw [bgPhase_nearMissed, particlesPhase_nearMissed, spawnPhase_nearMissed]; exact hE.2.2
  · rw [bgPhase_lastLevel, particlesPhase_lastLevel, spawnPhase_lastLevel,
      entitiesPhase_lastLevel]
  · rw [bgPhase_isDying]; exact hPd

theorem tailPhases_luCount (trig : Trig) (env : Env) (now : ℤ) (dt g : ℚ) (m : Bool)
    (st : GameSt) :
    ((tailPhases trig env now dt g m st).events).count SocialEvent.LEVEL_UP ≤
      st.events.count SocialEvent.LEVEL_UP + 1 := by
  unfold tailPhases
  rw [bgPhase_events, hazardSection_luCount, particlesPhase_events, spawnPhase_events,
    entitiesPhase_luCount]
  exact scorePhase_luCount m g now st

theorem tailPhases_lastLevel_le (trig : Trig) (env : Env) (now : ℤ) (dt g : ℚ) (m : Bool)
    (st : GameSt) :
    st.lastLevel ≤ (tailPhases trig env now dt g m st).lastLevel := by
  unfold tailPhases
  rw [bgPhase_lastLevel, hazardSection_lastLevel, particlesPhase_lastLevel,
    spawnPhase_lastLevel, entitiesPhase_lastLevel]
  exact scorePhase_lastLevel_le m g now st

theorem tailPhases_nearMissed_suffix (trig : Trig) (env : Env) (now : ℤ) (dt g : ℚ) (m : Bool)
    (st : GameSt) :
    st.nearMissed <:+ (tailPhases trig env now dt g m st).nearMissed := by
  unfold tailPhases
  rw [bgPhase_nearMissed, hazardSection_nearMissed, particlesPhase_nearMissed,
    spawnPhase_nearMissed]
  have h2 := entitiesPhase_nearMissed_suffix trig env now dt g (scorePhase m g now st)
  rw [scorePhase_nearMissed] at h2
  exact h2

theorem tailPhases_map_sm (trig : Trig) (env : Env) (now : ℤ) (dt g : ℚ) (m : Bool)
    (st : GameSt) :
    ∃ q, ((tailPhases trig env now dt g m st).obstacles.map Obstacle.speedMultiplier).Sublist
      (st.obstacles.map Obstacle.speedMultiplier ++ [q]) := by
  unfold tailPhases
  rw [bgPhase_obstacles, hazardSection_map_sm, particlesPhase_obstacles]
  have h2 := entitiesPhase_map_sm trig env now dt g (scorePhase m g now st)
  rw [scorePhase_obstacles] at h2
  rcases spawnPhase_map_sm trig (entitiesPhase trig env now dt g (scorePhase m g now st))
    with h | h
  · rw [h]
    exact ⟨0, h2.trans (List.sublist_append_left _ _)⟩
  · rw [h]
    exact ⟨1 + (entitiesPhase trig env now dt g (scorePhase m g now st)).score / 1000,
      h2.append (List.Sublist.refl _)⟩

theorem update_not_playing (gs : GameState) (inp : InputState) (trig : Trig) (env : Env)
    (now : ℤ) (st : GameSt) (h : gs ≠ GameState.PLAYING) :
    update gs inp trig env now st = st := by
  unfold update
  rw [if_neg h]

theorem update_playing_eq (inp : InputState) (trig : Trig) (env : Env) (now : ℤ)
    (st : GameSt) :
    update GameState.PLAYING inp trig env now st =
      tailPhases trig env now st.timeScale
        ((6 + (playerPhases inp now st).score / 1200) * st.timeScale)
        ((shakePhase st.timeScale st).activePowerUps.has PowerUpType.MULTIPLIER)
        (playerPhases inp now st) := by
  unfold update
  rw [if_pos rfl]

theorem update_nearMissed_suffix (gs : GameState) (inp : InputState) (trig : Trig) (env : Env)
    (now : ℤ) (st : GameSt) :
    st.nearMissed <:+ (update gs inp trig env now st).nearMissed := by
  by_cases hgs : gs = GameState.PLAYING
  · subst hgs
    rw [update_playing_eq]
    have h := tailPhases_nearMissed_suffix trig env now st.timeScale
      ((6 + (playerPhases inp now st).score / 1200) * st.timeScale)
      ((shakePhase st.timeScale st).activePowerUps.has PowerUpType.MULTIPLIER)
      (playerPhases inp now st)
    rw [playerPhases_nearMissed] at h
    exact h
  · rw [update_not_playing gs inp trig env now st hgs]

/-- C1 counterexample: in a PLAYING tick starting from score 2050 with
recorded level 1 — both the 1000-point and the 2000-point boundary
outstanding, as after a single-tick jump from 950 to 2050 — the tick emits
exactly ONE LEVEL_UP social event in total, not one per boundary crossed,
while the recorded level jumps from 1 straight to 3. -/
theorem levelUp_multi_boundary_cx :
    ({ st0 with score := 2050 } : GameSt).lastLevel = 1 ∧
    (update GameState.PLAYING inp0 trig0 env0 1000
      { st0 with score := 2050 }).events = [SocialEvent.LEVEL_UP] ∧
    (update GameState.PLAYING inp0 trig0 env0 1000
      { st0 with score := 2050 }).lastLevel = 3 := by
  refine ⟨rfl, ?_⟩
  norm_num [update, playerPhases, tailPhases, hazardSection, bgPhase,
    shakePhase, prunePhase, movePhase, dashPhase, physicsPhase, scorePhase,
    levelCheck, entitiesPhase, scrollPickups, cullOffscreen,
    obstaclesLoop, obstacleStep, obstacleBehave, nearMissCheck,
    spawnPhase, spawnObstacle, spawnPush, spawnCompanion, spawnGeom, obsTypeAt,
    powerUpTypeAt, spawnPowerUp,
    spawnCollectible, particlesPhase, pickupPhase, pickupMid, pickupApply, collectApply,
    shieldApply, powerUpLoop, collectibleLoop, hazardPhase,
    hazardLoop, hitTest, laserActive, missileSpeed, pickupOverlap, burstParticles,
    likeParticles, triggerDeathSequence,
    st0, rng0, trig0, env0, inp0, Registry.empty, Registry.has, Registry.get, Registry.prune,
    Registry.pruneSlot, Registry.set, Registry.delete, Rng.next, Rat.floor, Int.toNat,
    PLAYER_SPEED, PLAYER_X, PLAYER_SIZE, GROUND_Y,
    CANVAS_WIDTH, GRAVITY, INVINCIBILITY_DURATION, POWERUP_DURATION, NEAR_MISS_THRESHOLD]


/-- C1 (amended): whenever floor(score/1000)+1 exceeds the recorded level —
however many 1000-point boundaries that crossing spans — the level check
emits exactly one LEVEL_UP event for the tick and jumps the recorded level
directly to the current level; the check is then idempotent at that score,
a whole tick emits at most one LEVEL_UP, and the recorded level never
decreases, so no boundary is ever credited twice in a session. -/
theorem levelUp_once_per_tick (gs : GameState) (inp : InputState) (trig : Trig) (env : Env)
    (now : ℤ) (st : GameSt) (h : st.lastLevel < Rat.floor (st.score / 1000) + 1) :
    levelCheck now st =
      { st with lastLevel := Rat.floor (st.score / 1000) + 1,
                events := st.events ++ [SocialEvent.LEVEL_UP],
                invincibleUntil := now + INVINCIBILITY_DURATION } ∧
    levelCheck now (levelCheck now st) = levelCheck now st ∧
    ((update gs inp trig env now st).events).count SocialEvent.LEVEL_UP ≤
      st.events.count SocialEvent.LEVEL_UP + 1 ∧
    st.lastLevel ≤ (update gs inp trig env now st).lastLevel := by
  refine ⟨levelCheck_fires now st h, levelCheck_idem now st, ?_, ?_⟩
  · by_cases hgs : gs = GameState.PLAYING
    · subst hgs
      rw [update_playing_eq]
      have h2 := tailPhases_luCount trig env now st.timeScale
        ((6 + (playerPhases inp now st).score / 1200) * st.timeScale)
        ((shakePhase st.timeScale st).activePowerUps.has PowerUpType.MULTIPLIER)
        (playerPhases inp now st)
      rw [playerPhases_events] at h2
      exact h2
    · rw [update_not_playing gs inp trig env now st hgs]
      exact Nat.le_succ _
  · by_cases hgs : gs = GameState.PLAYING
    · subst hgs
      rw [update_playing_eq]
      have h2 := tailPhases_lastLevel_le trig env now st.timeScale
        ((6 + (playerPhases inp now st).score / 1200) * st.timeScale)
        ((shakePhase st.timeScale st).activePowerUps.has PowerUpType.MULTIPLIER)
        (playerPhases inp now st)
      rw [playerPhases_lastLevel] at h2
      exact h2
    · rw [update_not_playing gs inp trig env now st hgs]

/-- C1 (amended) witness: the level check on the concrete state with score
2050 and recorded level 1. -/
theorem levelUp_once_per_tick_witness :
    levelCheck 1000 { st0 with score := 2050 } =
      { ({ st0 with score := 2050 } : GameSt) with
        lastLevel := Rat.floor (({ st0 with score := 2050 } : GameSt).score / 1000) + 1,
        events := ({ st0 with score := 2050 } : GameSt).events ++ [SocialEvent.LEVEL_UP],
        invincibleUntil := 1000 + INVINCIBILITY_DURATION } :=
  (levelUp_once_per_tick GameState.PLAYING inp0 trig0 env0 1000 { st0 with score := 2050 }
    (by norm_num [st0, Rat.floor])).1

/-- C2: in the hazard section of a tick where the player is not invincible,
the registry holds a SHIELD and the single obstacle registers a hit, the
SHIELD entry is removed, the invincibility expiry becomes now + 1000, the
death sequence is not triggered, and the obstacle is pushed to x = -1000
exactly when its type is not laser (a laser is left unchanged). -/
theorem shield_absorbs_hit (env : Env) (now : ℤ) (st : GameSt) (obs : Obstacle)
    (hnd : st.isDying = false)
    (hs : st.activePowerUps.has PowerUpType.SHIELD = true)
    (hinv : ¬ now < st.invincibleUntil)
    (hobs : st.obstacles = [obs])
    (hhit : hitTest st.playerPos.1 st.playerPos.2 obs = true) :
    (hazardPhase env now st).activePowerUps.has PowerUpType.SHIELD = false ∧
    (hazardPhase env now st).invincibleUntil = now + 1000 ∧
    (hazardPhase env now st).isDying = false ∧
    (hazardPhase env now st).obstacles =
      [if obs.type ≠ ObsType.laser then { obs with x := -1000 } else obs] := by
  unfold hazardPhase
  rw [if_neg hinv, hobs]
  unfold hazardLoop
  rw [if_pos hhit, if_pos hs]
  exact ⟨rfl, rfl, hnd, rfl⟩

/-- C2 witness: the baseline player with an active SHIELD hit by an
overlapping wall. -/
theorem shield_absorbs_hit_witness :
    (hazardPhase env0 0 stC2).activePowerUps.has PowerUpType.SHIELD = false ∧
    (hazardPhase env0 0 stC2).invincibleUntil = 0 + 1000 ∧
    (hazardPhase env0 0 stC2).isDying = false ∧
    (hazardPhase env0 0 stC2).obstacles =
      [if oWall.type ≠ ObsType.laser then { oWall with x := -1000 } else oWall] :=
  shield_absorbs_hit env0 0 stC2 oWall rfl rfl (by decide) rfl
    (by norm_num [hitTest, oWall, stC2, st0, PLAYER_X, PLAYER_SIZE, GROUND_Y, laserActive];
        decide)

/-- C3: in the hazard section of a tick with no SHIELD held, no
invincibility and at least one hitting obstacle, the resulting state is
exactly ONE application of the death sequence — however many obstacles
overlap on that tick — which sets the dying flag and the 0.15 slow-motion
time scale; re-triggering the death sequence while already dying is a
complete no-op. -/
theorem death_triggers_once (env : Env) (now : ℤ) (st : GameSt)
    (hns : st.activePowerUps.has PowerUpType.SHIELD = false)
    (hnd : st.isDying = false)
    (hinv : ¬ now < st.invincibleUntil)
    (hhit : ∃ o ∈ st.obstacles, hitTest st.playerPos.1 st.playerPos.2 o = true) :
    hazardPhase env now st = triggerDeathSequence env st.playerPos.1 st.playerPos.2 st ∧
    (triggerDeathSequence env st.playerPos.1 st.playerPos.2 st).isDying = true ∧
    (triggerDeathSequence env st.playerPos.1 st.playerPos.2 st).timeScale = 3/20 ∧
    triggerDeathSequence env st.playerPos.1 st.playerPos.2
        (triggerDeathSequence env st.playerPos.1 st.playerPos.2 st) =
      triggerDeathSequence env st.playerPos.1 st.playerPos.2 st := by
  refine ⟨?_, triggerDeath_isDying env _ _ st hnd, triggerDeath_timeScale env _ _ st hnd,
    triggerDeath_idem env _ _ st⟩
  unfold hazardPhase
  rw [if_neg hinv, hazardLoop_death env now st.obstacles st hns hnd hhit]
  rw [← triggerDeath_obstacles env st.playerPos.1 st.playerPos.2 st]

/-- C3 witness: two obstacles overlapping the baseline player at once,
with no shield. -/
theorem death_triggers_once_witness :
    (hazardPhase env0 0 stC3).isDying = true ∧
    (hazardPhase env0 0 stC3).timeScale = 3/20 := by
  have h := death_triggers_once env0 0 stC3 rfl rfl (by decide)
    ⟨oWall, by simp [stC3, st0],
     by norm_num [hitTest, oWall, stC3, st0, PLAYER_X, PLAYER_SIZE, GROUND_Y, laserActive];
        decide⟩
  rw [h.1]
  exact ⟨h.2.1, h.2.2.1⟩

/-- C4: the freshly spawned obstacle has speedMultiplier exactly
1 + score/1000 (3 at score 2000), the per-tick behavior step and the
hazard loop leave every obstacle's speedMultiplier unchanged, and across a
whole tick the multiset of multipliers is a sublist of the previous ones
plus at most the newly spawned value. -/
theorem speedMultiplier_fixed (trig : Trig) (env : Env) (now : ℤ) (dt g : ℚ)
    (gs : GameState) (inp : InputState) (st : GameSt) :
    ((spawnObstacle trig st).obstacles.map Obstacle.speedMultiplier =
      st.obstacles.map Obstacle.speedMultiplier ++ [1 + st.score / 1000]) ∧
    (st.score = 2000 →
      (spawnObstacle trig st).obstacles.map Obstacle.speedMultiplier =
        st.obstacles.map Obstacle.speedMultiplier ++ [3]) ∧
    (∀ o s2, ((obstacleStep trig env now dt g o s2).1).speedMultiplier =
      o.speedMultiplier) ∧
    (∀ l s2, ((hazardLoop env now l s2).1).map Obstacle.speedMultiplier =
      l.map Obstacle.speedMultiplier) ∧
    (∃ q, ((update gs inp trig env now st).obstacles.map Obstacle.speedMultiplier).Sublist
      (st.obstacles.map Obstacle.speedMultiplier ++ [q])) := by
  refine ⟨spawnObstacle_map_sm trig st, ?_, obstacleStep_sm trig env now dt g,
    hazardLoop_fst_map_sm env now, ?_⟩
  · intro h2000
    rw [spawnObstacle_map_sm trig st, h2000]
    have h3 : (1 : ℚ) + 2000 / 1000 = 3 := by norm_num
    rw [h3]
  · by_cases hgs : gs = GameState.PLAYING
    · subst hgs
      rw [update_playing_eq]
      have h := tailPhases_map_sm trig env now st.timeScale
        ((6 + (playerPhases inp now st).score / 1200) * st.timeScale)
        ((shakePhase st.timeScale st).activePowerUps.has PowerUpType.MULTIPLIER)
        (playerPhases inp now st)
      rw [playerPhases_obstacles] at h
      exact h
    · rw [update_not_playing gs inp trig env now st hgs]
      exact ⟨0, List.sublist_append_left _ _⟩

/-- C4 witness: an obstacle spawned at score 2000 carries multiplier 3. -/
theorem speedMultiplier_fixed_witness :
    (spawnObstacle trig0 { st0 with score := 2000 }).obstacles.map Obstacle.speedMultiplier =
      ({ st0 with score := 2000 } : GameSt).obstacles.map Obstacle.speedMultiplier ++ [3] :=
  (speedMultiplier_fixed trig0 env0 0 1 1 GameState.PLAYING inp0
    { st0 with score := 2000 }).2.1 rfl

/-- C5: a near-miss is credited at most once per obstacle id per session:
an id already in the set is never re-credited (the check is a no-op), the
first crediting adds the id, +500 score and one NEAR_MISS event, a whole
tick only ever extends the near-miss set, and only the session reset
clears it. -/
theorem near_miss_once (obs : Obstacle) (st : GameSt) (gs : GameState) (inp : InputState)
    (trig : Trig) (env : Env) (now : ℤ) :
    (obs.id ∈ st.nearMissed → nearMissCheck obs st = st) ∧
    (obs.id ∉ st.nearMissed → st.isDying = false →
      (st.playerPos.1 + PLAYER_SIZE/2 - (obs.x + obs.width/2)) *
          (st.playerPos.1 + PLAYER_SIZE/2 - (obs.x + obs.width/2)) +
        (st.playerPos.2 + PLAYER_SIZE/2 - (obs.y + obs.height/2)) *
          (st.playerPos.2 + PLAYER_SIZE/2 - (obs.y + obs.height/2)) <
        (PLAYER_SIZE + NEAR_MISS_THRESHOLD)^2 →
      (nearMissCheck obs st).score = st.score + 500 ∧
      (nearMissCheck obs st).events = st.events ++ [SocialEvent.NEAR_MISS] ∧
      obs.id ∈ (nearMissCheck obs st).nearMissed) ∧
    st.nearMissed <:+ (update gs inp trig env now st).nearMissed ∧
    (resetGame st).nearMissed = [] := by
  refine ⟨?_, ?_, update_nearMissed_suffix gs inp trig env now st, rfl⟩
  · intro hmem
    unfold nearMissCheck
    simp [hmem]
  · intro hmem hnd hdist
    unfold nearMissCheck
    simp only [hnd, hmem, decide_eq_true_eq, decide_eq_false_iff_not, not_false_eq_true,
      Bool.not_false, Bool.and_self, if_true, decide_not]
    rw [if_pos hdist]
    exact ⟨rfl, rfl, List.mem_cons_self _ _⟩

/-- C5 witness: a spike centred on the player is credited once, and an id
already in the set is not credited again. -/
theorem near_miss_once_witness :
    nearMissCheck oSpike { st0 with nearMissed := [oSpike.id] } =
      { st0 with nearMissed := [oSpike.id] } ∧
    (nearMissCheck oSpike st0).score = st0.score + 500 := by
  constructor
  · exact (near_miss_once oSpike { st0 with nearMissed := [oSpike.id] } GameState.PLAYING
      inp0 trig0 env0 0).1 (by simp [st0, oSpike])
  · exact ((near_miss_once oSpike st0 GameState.PLAYING inp0 trig0 env0 0).2.1
      (by simp [st0, oSpike]) rfl
      (by norm_num [st0, oSpike, PLAYER_X, PLAYER_SIZE, GROUND_Y, NEAR_MISS_THRESHOLD])).1

/-- C6: a session reset produces the START-equivalent state — empty
obstacle, collectible, power-up and particle lists, zero score, empty
near-miss set, empty power-up registry, time scale 1.0 and the dying flag
cleared, whatever the state before the reset — and a subsequent tick in
the START session state leaves that state exactly unchanged. -/
theorem reset_roundtrip (inp : InputState) (trig : Trig) (env : Env) (now : ℤ) (st : GameSt) :
    update GameState.START inp trig env now (resetGame st) = resetGame st ∧
    (resetGame st).obstacles = [] ∧ (resetGame st).collectibles = [] ∧
    (resetGame st).powerUps = [] ∧ (resetGame st).particles = [] ∧
    (resetGame st).score = 0 ∧ (resetGame st).nearMissed = [] ∧
    (resetGame st).activePowerUps = Registry.empty ∧
    (resetGame st).timeScale = 1 ∧ (resetGame st).isDying = false :=
  ⟨update_not_playing GameState.START inp trig env now (resetGame st) (by decide),
   rfl, rfl, rfl, rfl, rfl, rfl, rfl, rfl, rfl⟩

/-- C7: with MULTIPLIER active the passive accrual of a tick is the base
accrual (gameSpeed/8) multiplied by 2.5 — not the base plus 2.5 — while a
collectible picked up awards a flat 300; with MULTIPLIER inactive the
passive accrual is the base amount and a collectible awards 100. -/
theorem multiplier_scoring (g : ℚ) (now : ℤ) (st : GameSt) (c : Collectible)
    (hnd : st.isDying = false)
    (hov : pickupOverlap st.playerPos.1 st.playerPos.2 c.x c.y c.size = true)
    (hnc : c.collected = false) :
    (scorePhase true g now st).score = st.score + (g / 8) * (5/2) ∧
    (scorePhase false g now st).score = st.score + g / 8 ∧
    ((collectibleLoop true [c] st).2).score = st.score + 300 ∧
    ((collectibleLoop false [c] st).2).score = st.score + 100 := by
  refine ⟨?_, ?_, ?_, ?_⟩
  · rw [scorePhase_score_alive true g now st hnd]
    simp
  · rw [scorePhase_score_alive false g now st hnd]
    simp
  · simp [collectibleLoop, hnc, hov, collectApply_score]
  · simp [collectibleLoop, hnc, hov, collectApply_score]

/-- C7 witness: the baseline player over a concrete overlapping
collectible, at base accrual gameSpeed 8. -/
theorem multiplier_scoring_witness :
    (scorePhase true 8 0 st0).score = st0.score + (8 / 8) * (5/2) ∧
    ((collectibleLoop true [cW] st0).2).score = st0.score + 300 ∧
    ((collectibleLoop false [cW] st0).2).score = st0.score + 100 := by
  have h := multiplier_scoring 8 0 st0 cW rfl
    (by norm_num [pickupOverlap, cW, st0, PLAYER_X, PLAYER_SIZE, GROUND_Y]) rfl
  exact ⟨h.1, h.2.2.1, h.2.2.2⟩

/-- C8: over a PLAYING tick starting from a live (non-dying) state with
the nonnegativity invariants on score and time scale, the score never
decreases: every mutation — passive accrual, near-miss bonus, collectible
pickup — adds a nonnegative amount and nothing subtracts. -/
theorem score_monotone_tick (inp : InputState) (trig : Trig) (env : Env) (now : ℤ)
    (st : GameSt) (_hnd : st.isDying = false) (hs : 0 ≤ st.score) (ht : 0 ≤ st.timeScale) :
    st.score ≤ (update GameState.PLAYING inp trig env now st).score := by
  rw [update_playing_eq]
  have hp := playerPhases_score inp now st
  have hq : 0 ≤ st.score / 1200 := div_nonneg hs (by norm_num)
  have hg : 0 ≤ (6 + (playerPhases inp now st).score / 1200) * st.timeScale := by
    rw [hp]
    exact mul_nonneg (by linarith) ht
  calc st.score = (playerPhases inp now st).score := hp.symm
    _ ≤ _ := tailPhases_score_le trig env now st.timeScale
        ((6 + (playerPhases inp now st).score / 1200) * st.timeScale)
        ((shakePhase st.timeScale st).activePowerUps.has PowerUpType.MULTIPLIER)
        (playerPhases inp now st) hg

/-- C8 witness: one PLAYING tick from the baseline state. -/
theorem score_monotone_tick_witness :
    st0.score ≤ (update GameState.PLAYING inp0 trig0 env0 1000 st0).score :=
  score_monotone_tick inp0 trig0 env0 1000 st0 rfl (by norm_num [st0]) (by norm_num [st0])

/-- C9 helper: one PLAYING tick on a dying state leaves score, events,
near-miss set and recorded level untouched and keeps the dying flag. -/
theorem update_playing_of_dying (inp : InputState) (trig : Trig) (env : Env) (now : ℤ)
    (st : GameSt) (h : st.isDying = true) :
    (update GameState.PLAYING inp trig env now st).score = st.score ∧
    (update GameState.PLAYING inp trig env now st).events = st.events ∧
    (update GameState.PLAYING inp trig env now st).nearMissed = st.nearMissed ∧
    (update GameState.PLAYING inp trig env now st).lastLevel = st.lastLevel ∧
    (update GameState.PLAYING inp trig env now st).isDying = true := by
  rw [update_playing_eq]
  have hpd : (playerPhases inp now st).isDying = true := by
    rw [playerPhases_isDying]; exact h
  have hT := tailPhases_of_dying trig env now st.timeScale
    ((6 + (playerPhases inp now st).score / 1200) * st.timeScale)
    ((shakePhase st.timeScale st).activePowerUps.has PowerUpType.MULTIPLIER)
    (playerPhases inp now st) hpd
  exact ⟨hT.1.trans (playerPhases_score inp now st),
    hT.2.1.trans (playerPhases_events inp now st),
    hT.2.2.1.trans (playerPhases_nearMissed inp now st),
    hT.2.2.2.1.trans (playerPhases_lastLevel inp now st),
    hT.2.2.2.2⟩

/-- C9: while the dying flag is set, any run of PLAYING ticks leaves the
score completely unchanged — passive accrual, level-up checks, near-miss
credits and pickup awards are all skipped (no event is emitted and neither
the near-miss set nor the recorded level moves) — so the score reported at
game over is the floor of the score at the moment the death sequence was
triggered. -/
theorem dying_ticks_freeze_score (trig : Trig) (env : Env) (ps : List (InputState × ℤ))
    (st : GameSt) (h : st.isDying = true) :
    (ticksPlaying trig env ps st).score = st.score ∧
    (ticksPlaying trig env ps st).events = st.events ∧
    (ticksPlaying trig env ps st).nearMissed = st.nearMissed ∧
    (ticksPlaying trig env ps st).lastLevel = st.lastLevel ∧
    gameOverReport (ticksPlaying trig env ps st) = Rat.floor st.score := by
  have main : ∀ ps2 (st2 : GameSt), st2.isDying = true →
      (ticksPlaying trig env ps2 st2).score = st2.score ∧
      (ticksPlaying trig env ps2 st2).events = st2.events ∧
      (ticksPlaying trig env ps2 st2).nearMissed = st2.nearMissed ∧
      (ticksPlaying trig env ps2 st2).lastLevel = st2.lastLevel ∧
      (ticksPlaying trig env ps2 st2).isDying = true := by
    intro ps2
    induction ps2 with
    | nil => exact fun st2 h2 => ⟨rfl, rfl, rfl, rfl, h2⟩
    | cons p ps3 ih =>
        intro st2 h2
        unfold ticksPlaying
        rw [List.foldl_cons]
        have h1 := update_playing_of_dying p.1 trig env p.2 st2 h2
        have ih2 := ih (update GameState.PLAYING p.1 trig env p.2 st2) h1.2.2.2.2
        unfold ticksPlaying at ih2
        exact ⟨ih2.1.trans h1.1, ih2.2.1.trans h1.2.1, ih2.2.2.1.trans h1.2.2.1,
          ih2.2.2.2.1.trans h1.2.2.2.1, ih2.2.2.2.2⟩
  have hm := main ps st h
  refine ⟨hm.1, hm.2.1, hm.2.2.1, hm.2.2.2.1, ?_⟩
  unfold gameOverReport
  rw [hm.1]

/-- C9 witness: two PLAYING ticks on a concrete mid-death state. -/
theorem dying_ticks_freeze_score_witness :
    (ticksPlaying trig0 env0 [(inp0, 100), (inp0, 200)] stDying).score = stDying.score ∧
    gameOverReport (ticksPlaying trig0 env0 [(inp0, 100), (inp0, 200)] stDying) =
      Rat.floor stDying.score := by
  have h := dying_ticks_freeze_score trig0 env0 [(inp0, 100), (inp0, 200)] stDying rfl
  exact ⟨h.1, h.2.2.2.2⟩

/-- C10: the laser hazard test ignores the player's vertical position —
two ticks differing only in player y produce the same outcome — and
registers a hit exactly when the laser is active and the player's
horizontal extent overlaps the band (obs.x + 5, obs.x + width - 5). -/
theorem laser_hit_y_independent (obs : Obstacle) (px y1 y2 : ℚ)
    (h : obs.type = ObsType.laser) :
    hitTest px y1 obs = hitTest px y2 obs ∧
    hitTest px y1 obs = (laserActive obs.state &&
      decide (px + PLAYER_SIZE > obs.x + 5) && decide (px < obs.x + obs.width - 5)) := by
  unfold hitTest
  rw [h]
  constructor
  · simp
  · simp

/-- C10 witness: the concrete active laser hit at two different heights. -/
theorem laser_hit_y_independent_witness :
    hitTest 100 0 oLaser = hitTest 100 250 oLaser :=
  (laser_hit_y_independent oLaser 100 0 250 rfl).1

end GameCanvas
